import Mathlib

/-!
Connection bring-up in `cmd/main.go` of cql-proxy.

A shallow embedding of the exercising program `cmd/main.go` of cql-proxy and of
the `proxy` / `proxycore` operations it calls.

* The functions of `cmd/main.go` (`closeExample`, `connWithBundleEx`,
  `connClusterWithBundleEx`, `main`) are translated from the source.  Calls into
  the packages `proxy` and `proxycore` are parameters (`World`), and every call
  the program makes is recorded in a trace of `Event`s.
* `log.Fatalf` ends the process (`os.Exit(1)`); an out-of-range index is a
  runtime panic.  Both are terminal `Status` values.
* A `select` statement is evaluated against a `SelectEnv`: which channels are
  ready at that moment and which ready case the runtime picks.
-/

namespace CqlProxy

/-! ## Values shared by the program and its collaborators -/

/-- Modelled from the spec: the classification of an error value, that is the
taxonomy of section 7 with the `closed` cause of section 8 and a catch-all (the
error types of packages `proxy` and `proxycore` are missing). -/
inductive ErrKind where
  | connectError
  | bundleError
  | resolveError
  | versionError
  | authError
  | timeoutError
  | cancelledError
  | credentialsError
  | clusterConnectError
  | closed
  | other
deriving DecidableEq, Repr

/-- A non-nil Go `error`: its classification and the text of `err.Error()`. -/
structure GoError where
  kind : ErrKind
  msg : String
deriving DecidableEq, Repr

/-- Equality of results is decidable when it is for values and errors. -/
instance instDecidableEqExcept {ε α : Type} [DecidableEq ε] [DecidableEq α] :
    DecidableEq (Except ε α)
  | .ok a, .ok b => if h : a = b then isTrue (by rw [h]) else isFalse (by intro h2; cases h2; exact h rfl)
  | .error a, .error b =>
    if h : a = b then isTrue (by rw [h]) else isFalse (by intro h2; cases h2; exact h rfl)
  | .ok _, .error _ => isFalse (by intro h; cases h)
  | .error _, .ok _ => isFalse (by intro h; cases h)

/-- A contact point. -/
structure Endpoint where
  host : String
  port : Nat
deriving DecidableEq, Repr

/-- A `context.Context`, observed through its cancellation signal: `done n`
tells whether the signal is set at the `n`-th time it is consulted. -/
structure Context where
  done : Nat → Bool

/-- The context returned by `context.Background()`: never cancelled. -/
def Context.Background : Context := ⟨fun _ => false⟩

/-- The value built by `proxycore.NewDefaultAuth(username, password)`. -/
structure Auth where
  username : String
  password : String
deriving DecidableEq, Repr

/-- The constructor `proxycore.NewDefaultAuth`. -/
def NewDefaultAuth (username password : String) : Auth := ⟨username, password⟩

/-- The constant `primitive.ProtocolVersion4`. -/
def ProtocolVersion4 : Nat := 4

/-- First argument of `NewDefaultAuth` in `cmd/main.go` (lines 221 and 257). -/
def mainUsername : String := "HYhtHNEYMKOFpFGyOsAYyHSK"

/-- Second argument of `NewDefaultAuth` in `cmd/main.go` (lines 221 and 257). -/
def mainPassword : String :=
  "rEPtSneDWH3Of8HCMQD1d8uANl5.T5NavwIvJLLUivOJsA7fyl9z_4uTNCmHMkgiWcPTz2nCI5,p+3X41hEpdj5fDz,tOa,vjEMmd0K,2wllbPn_dqRZPox5TbP1H,QE"

/-- The bundle path literal of `cmd/main.go` (lines 204 and 245). -/
def bundlePath : String := "secure-connect-testdb1.zip"

/-! ## The collaborators of `cmd/main.go` -/

/-- The operations of `proxycore` that `cmd/main.go` calls, each returning a
value or an error.  `β` is the bundle type, `φ` the endpoint factory type and
`κ` the Connection type; the program can only pass on values it was given. -/
structure World (β φ κ : Type) where
  LoadBundleZip : String → Except GoError β
  ResolveAstra : β → Except GoError φ
  ContactPoints : φ → List Endpoint
  ClusterConnect : Context → Endpoint → Except GoError κ
  Handshake : κ → Context → Nat → Auth → Except GoError Nat
  ConnectToCluster : Context → Nat → Auth → φ → Except GoError κ
  Err : κ → Option GoError

/-- One call made by the program, with the arguments it passed. -/
inductive Event (β φ κ : Type) where
  | LoadBundleZip (path : String)
  | ResolveAstra (bundle : β)
  | ClusterConnect (ctx : Context) (endpoint : Endpoint)
  | Handshake (conn : κ) (ctx : Context) (version : Nat) (auth : Auth)
  | ConnectToCluster (ctx : Context) (version : Nat) (auth : Auth) (factory : φ)
  | Fatalf (message : String)
  | Printf (message : String)
  | Close (conn : κ)
  | Sleep (seconds : Nat)

/-- How a run of a function of `cmd/main.go` stands at the end of the observed
environment. -/
inductive Status where
  /-- The process exited: `log.Fatalf` printed its message and called `os.Exit(1)`. -/
  | exited (code : Nat)
  /-- A runtime panic `index out of range [index] with length len`. -/
  | panicked (index len : Nat)
  /-- The function is still inside its wait loop. -/
  | waiting
  /-- The function returned normally. -/
  | returned
deriving DecidableEq, Repr

/-- A run: the calls made, in order, and the status reached. -/
structure Run (β φ κ : Type) where
  trace : List (Event β φ κ)
  status : Status

/-- Text of `%v` applied to a non-nil error. -/
def fmtErr (err : GoError) : String := err.msg

/-- Text of `%v` applied to a possibly nil error. -/
def fmtErrOpt : Option GoError → String
  | none => "<nil>"
  | some err => err.msg

/-! ## Timers and `select` -/

/-- A `*time.Timer`: `armed` while it will still send on its channel `C` once
its duration has elapsed. -/
structure Timer where
  armed : Bool
deriving DecidableEq, Repr

/-- The timer returned by `time.NewTimer(d)`. -/
def NewTimer : Timer := ⟨true⟩

/-- The call `timer.Stop()`: it prevents the timer from firing.  Where the program
calls it (line 264) the timer, created on the line before with a duration of one
second, has not expired yet. -/
def Timer.Stop (_t : Timer) : Timer := ⟨false⟩

/-- The timer after its single value was received from `C`. -/
def Timer.received (_t : Timer) : Timer := ⟨false⟩

/-- What the environment offers to one evaluation of a `select`. -/
structure SelectEnv where
  /-- The channel returned by `conn.IsClosed()` is ready (the close signal has
  fired). -/
  isClosed : Bool
  /-- The timer's duration has elapsed. -/
  timerDue : Bool
  /-- When both cases are ready the runtime picks the timer case. -/
  preferTimer : Bool
deriving DecidableEq, Repr

/-- The cases of the `select` statements at lines 232-238 and 268-273. -/
inductive SelectCase where
  | isClosed
  | timerC
deriving DecidableEq, Repr

/-- Whether `timer.C` can deliver at this evaluation. -/
def Timer.ready (t : Timer) (e : SelectEnv) : Bool := t.armed && e.timerDue

/-- The case a `select` over `conn.IsClosed()` and `timer.C` proceeds with;
`none` when no case is ready and the `select` keeps blocking. -/
def selectCase (t : Timer) (e : SelectEnv) : Option SelectCase :=
  if e.isClosed && t.ready e then
    some (if e.preferTimer then SelectCase.timerC else SelectCase.isClosed)
  else if e.isClosed then some SelectCase.isClosed
  else if t.ready e then some SelectCase.timerC
  else none

/-- State of a wait loop `for !closed { select { ... } }`. -/
structure LoopState (β φ κ : Type) where
  /-- The loop variable `closed`. -/
  closed : Bool
  timer : Timer
  /-- Calls made so far by the function. -/
  trace : List (Event β φ κ)
  /-- Number of times the case `<-timer.C` was taken. -/
  timerTaken : Nat

/-! ## `connWithBundleEx` (lines 203-242) -/

/-- Why the straight-line part of a function stopped the program. -/
inductive Stop where
  | fatal (message : String)
  | panic (index len : Nat)
deriving DecidableEq, Repr

/-- Status reached by a `Stop`. -/
def Stop.status : Stop → Status
  | Stop.fatal _ => Status.exited 1
  | Stop.panic i n => Status.panicked i n

/-- Lines 204-226 of `connWithBundleEx`: the four phases.  Returns the calls
made and either the Connection with its negotiated version or the reason the
program stopped. -/
def connWithBundleExPhases {β φ κ : Type} (w : World β φ κ) :
    List (Event β φ κ) × Except Stop (κ × Nat) :=
  match w.LoadBundleZip bundlePath with
  | .error err =>
    ([.LoadBundleZip bundlePath, .Fatalf ("unable to open bundle: " ++ fmtErr err)],
      .error (.fatal ("unable to open bundle: " ++ fmtErr err)))
  | .ok bundle =>
    match w.ResolveAstra bundle with
    | .error err =>
      ([.LoadBundleZip bundlePath, .ResolveAstra bundle,
          .Fatalf ("unable to resolve endpoints: " ++ fmtErr err)],
        .error (.fatal ("unable to resolve endpoints: " ++ fmtErr err)))
    | .ok factory =>
      let ctx := Context.Background
      match w.ContactPoints factory with
      | [] =>
        ([.LoadBundleZip bundlePath, .ResolveAstra bundle], .error (.panic 0 0))
      | ep :: _ =>
        match w.ClusterConnect ctx ep with
        | .error err =>
          ([.LoadBundleZip bundlePath, .ResolveAstra bundle, .ClusterConnect ctx ep,
              .Fatalf ("unable to connect to cluster: " ++ fmtErr err)],
            .error (.fatal ("unable to connect to cluster: " ++ fmtErr err)))
        | .ok conn =>
          let auth := NewDefaultAuth mainUsername mainPassword
          match w.Handshake conn ctx ProtocolVersion4 auth with
          | .error err =>
            ([.LoadBundleZip bundlePath, .ResolveAstra bundle, .ClusterConnect ctx ep,
                .Handshake conn ctx ProtocolVersion4 auth,
                .Fatalf ("unable to connect to cluster: " ++ fmtErr err)],
              .error (.fatal ("unable to connect to cluster: " ++ fmtErr err)))
          | .ok version =>
            ([.LoadBundleZip bundlePath, .ResolveAstra bundle, .ClusterConnect ctx ep,
                .Handshake conn ctx ProtocolVersion4 auth],
              .ok (conn, version))

/-- One evaluation of the loop at lines 231-239 of `connWithBundleEx`. -/
def bundleWaitStep {β φ κ : Type} (w : World β φ κ) (conn : κ)
    (s : LoopState β φ κ) (e : SelectEnv) : LoopState β φ κ :=
  if s.closed then s
  else
    match selectCase s.timer e with
    | none => s
    | some .isClosed =>
      { s with closed := true
               trace := s.trace ++ [.Printf ("closed " ++ fmtErrOpt (w.Err conn))] }
    | some .timerC =>
      { s with timer := s.timer.received
               trace := s.trace ++ [.Close conn]
               timerTaken := s.timerTaken + 1 }

/-- The end of a function that ran its wait loop over `envs` and then sleeps
two seconds and returns. -/
def finishLoop {β φ κ : Type} (s : LoopState β φ κ) : Run β φ κ :=
  if s.closed then ⟨s.trace ++ [.Sleep 2], .returned⟩ else ⟨s.trace, .waiting⟩

/-- The function `connWithBundleEx`, run against the collaborators `w` and the
successive `select` environments `envs`. -/
def connWithBundleEx {β φ κ : Type} (w : World β φ κ) (envs : List SelectEnv) :
    Run β φ κ :=
  match connWithBundleExPhases w with
  | (tr, .error stop) => ⟨tr, stop.status⟩
  | (tr, .ok (conn, _version)) =>
    let timer := NewTimer
    finishLoop (envs.foldl (bundleWaitStep w conn) ⟨false, timer, tr, 0⟩)

/-! ## `connClusterWithBundleEx` (lines 244-277) and `main` -/

/-- Lines 245-261 of `connClusterWithBundleEx`. -/
def connClusterWithBundleExPhases {β φ κ : Type} (w : World β φ κ) :
    List (Event β φ κ) × Except Stop κ :=
  match w.LoadBundleZip bundlePath with
  | .error err =>
    ([.LoadBundleZip bundlePath, .Fatalf ("unable to open bundle: " ++ fmtErr err)],
      .error (.fatal ("unable to open bundle: " ++ fmtErr err)))
  | .ok bundle =>
    match w.ResolveAstra bundle with
    | .error err =>
      ([.LoadBundleZip bundlePath, .ResolveAstra bundle,
          .Fatalf ("unable to resolve astra: " ++ fmtErr err)],
        .error (.fatal ("unable to resolve astra: " ++ fmtErr err)))
    | .ok factory =>
      let ctx := Context.Background
      let auth := NewDefaultAuth mainUsername mainPassword
      match w.ConnectToCluster ctx ProtocolVersion4 auth factory with
      | .error err =>
        ([.LoadBundleZip bundlePath, .ResolveAstra bundle,
            .ConnectToCluster ctx ProtocolVersion4 auth factory,
            .Fatalf ("unable to connect to cluster: " ++ fmtErr err)],
          .error (.fatal ("unable to connect to cluster: " ++ fmtErr err)))
      | .ok conn =>
        ([.LoadBundleZip bundlePath, .ResolveAstra bundle,
            .ConnectToCluster ctx ProtocolVersion4 auth factory],
          .ok conn)

/-- One evaluation of the loop at lines 267-274 of `connClusterWithBundleEx`. -/
def clusterWaitStep {β φ κ : Type} (conn : κ)
    (s : LoopState β φ κ) (e : SelectEnv) : LoopState β φ κ :=
  if s.closed then s
  else
    match selectCase s.timer e with
    | none => s
    | some .isClosed => { s with closed := true }
    | some .timerC =>
      { s with timer := s.timer.received
               trace := s.trace ++ [.Close conn]
               timerTaken := s.timerTaken + 1 }

/-- The loop state with which `connClusterWithBundleEx` enters its wait loop:
the timer of line 263 has been stopped at line 264. -/
def clusterLoopInit {β φ κ : Type} (tr : List (Event β φ κ)) : LoopState β φ κ :=
  let timer := NewTimer
  let timer := timer.Stop
  ⟨false, timer, tr, 0⟩

/-- The function `connClusterWithBundleEx`. -/
def connClusterWithBundleEx {β φ κ : Type} (w : World β φ κ) (envs : List SelectEnv) :
    Run β φ κ :=
  match connClusterWithBundleExPhases w with
  | (tr, .error stop) => ⟨tr, stop.status⟩
  | (tr, .ok conn) =>
    finishLoop (envs.foldl (clusterWaitStep conn) (clusterLoopInit tr))

/-- The function `main` (lines 279-281). -/
def main {β φ κ : Type} (w : World β φ κ) (envs : List SelectEnv) : Run β φ κ :=
  connClusterWithBundleEx w envs

/-- The four phases of `connWithBundleEx`, by the call that carries each:
`LoadBundleZip`, `ResolveAstra`, `ClusterConnect`, `Handshake`. -/
inductive Phase where
  | bundle
  | resolve
  | connect
  | handshake
deriving DecidableEq, Repr

/-- The first phase whose collaborator returns an error when the phases are run
in order on the values `connWithBundleEx` passes, with that error; `none` when
no phase that can be run fails. -/
def firstFailure {β φ κ : Type} (w : World β φ κ) : Option (Phase × GoError) :=
  match w.LoadBundleZip bundlePath with
  | .error err => some (.bundle, err)
  | .ok bundle =>
    match w.ResolveAstra bundle with
    | .error err => some (.resolve, err)
    | .ok factory =>
      match (w.ContactPoints factory).head? with
      | none => none
      | some ep =>
        match w.ClusterConnect Context.Background ep with
        | .error err => some (.connect, err)
        | .ok conn =>
          match w.Handshake conn Context.Background ProtocolVersion4
              (NewDefaultAuth mainUsername mainPassword) with
          | .error err => some (.handshake, err)
          | .ok _ => none

/-- Every factory that `ResolveAstra` returns for the loaded bundle has at least
one contact point. -/
def HasContactPoint {β φ κ : Type} (w : World β φ κ) : Prop :=
  ∀ bundle factory, w.LoadBundleZip bundlePath = .ok bundle →
    w.ResolveAstra bundle = .ok factory → w.ContactPoints factory ≠ []

/-! ## The client read loop of `closeExample` (lines 94-104) -/

/-- A non-nil error returned by `conn.Read`, up to the comparisons the loop
makes: the sentinel values `net.ErrClosed` and `io.EOF`, or any other error
value (a connection reset, an error wrapping a sentinel, ...). -/
inductive ReadError where
  | ErrClosed
  | EOF
  | otherError (text : String)
deriving DecidableEq, Repr

/-- The condition of line 97, `err == net.ErrClosed || err == io.EOF`, on the
`err` of one `Read` (`none` is `nil`). -/
def readBreaks (err : Option ReadError) : Bool :=
  err == some ReadError.ErrClosed || err == some ReadError.EOF

/-- The loop at lines 94-104.  `read i` is the `err` of the `i`-th `Read`
(counted from 0); `i` is the index of the next `Read` and `logged` the lines
logged so far.  The loop runs for at most `fuel` iterations: `some (i, logged)`
when it reached `break` at the `Read` of index `i`, `none` when it is still
running after `fuel` iterations. -/
def clientReadLoop (read : Nat → Option ReadError) :
    Nat → Nat → List String → Option (Nat × List String)
  | 0, _, _ => none
  | fuel + 1, i, logged =>
    let err := read i
    if readBreaks err then some (i, logged ++ ["closed"])
    else
      match err with
      | some (ReadError.otherError text) =>
        clientReadLoop read fuel (i + 1) (logged ++ ["error reading " ++ text ++ "\n"])
      | _ => clientReadLoop read fuel (i + 1) logged

/-- The read loop of `closeExample` terminates on the sequence `read`. -/
def ReadLoopTerminates (read : Nat → Option ReadError) : Prop :=
  ∃ fuel, (clientReadLoop read fuel 0 []).isSome = true

/-! ## The Connection of package `proxy` (design, sections 3 and 4.1) -/

/-- Modelled from the spec: the Connection state of section 3; package `proxy`
is not part of the sources at hand. -/
inductive ConnState where
  | Connecting
  | Open
  | Closing
  | Closed
deriving DecidableEq, Repr

/-- Modelled from the spec: the Connection of section 3 (package `proxy` is
missing): state, last recorded error, outbound queue and close signal.  Senders
are named by a number; `served` lists the senders that were invoked with an
output sink. -/
structure Connection where
  state : ConnState
  err : Option GoError
  queue : List Nat
  signal : Bool
  served : List Nat
deriving DecidableEq, Repr

/-- Modelled from the spec: the "closed" classified error of section 8. -/
def closedError : GoError := ⟨ErrKind.closed, "closed"⟩

namespace Connection

/-- Modelled from the spec: a Connection has been shut down or is shutting
down (package `proxy` is missing). -/
def shut (c : Connection) : Bool :=
  c.state == ConnState.Closing || c.state == ConnState.Closed

/-- Modelled from the spec: `Write(sender)` of section 4.1 (package `proxy` is
missing).  It enqueues the sender and returns at once; after `Close` it fails
with the "closed" error, which surfaces through the error path. -/
def Write (sender : Nat) (c : Connection) : Connection :=
  if c.shut then { c with err := some closedError }
  else { c with queue := c.queue ++ [sender] }

/-- Modelled from the spec: `Close()` of section 4.1 (package `proxy` is
missing).  It initiates graceful shutdown; a second call is a no-op. -/
def Close (c : Connection) : Connection :=
  if c.shut then c else { c with state := ConnState.Closing }

/-- Modelled from the spec: the I/O driver finds the socket writable and invokes
the sender at the head of the queue with an output sink (section 4.1; package
`proxy` is missing). -/
def writable (c : Connection) : Connection :=
  match c.state, c.queue with
  | ConnState.Open, sender :: rest => { c with queue := rest, served := c.served ++ [sender] }
  | _, _ => c

/-- Modelled from the spec: the graceful shutdown completes and the close signal
fires (section 4.1; package `proxy` is missing). -/
def shutdownDone (c : Connection) : Connection :=
  match c.state with
  | ConnState.Closing => { c with state := ConnState.Closed, signal := true }
  | _ => c

/-- Modelled from the spec: a fatal I/O error is recorded and the close signal
fires (sections 4.1 and 7; package `proxy` is missing). -/
def fail (cause : GoError) (c : Connection) : Connection :=
  match c.state with
  | ConnState.Closed => c
  | _ => { c with state := ConnState.Closed, err := some cause, signal := true }

/-- Modelled from the spec: `IsClosed()` of section 4.1, as the state of the
completion signal (package `proxy` is missing). -/
def IsClosed (c : Connection) : Bool := c.signal

/-- Modelled from the spec: `Err()` of section 4.1 (package `proxy` is
missing). -/
def Err (c : Connection) : Option GoError := c.err

end Connection

/-- Modelled from the spec: what can happen to a Connection, by its owner
(`Write`, `Close`) or its I/O driver (package `proxy` is missing). -/
inductive ConnOp where
  | Write (sender : Nat)
  | Close
  | writable
  | shutdownDone
  | fail (cause : GoError)
deriving DecidableEq, Repr

/-- Modelled from the spec: the effect of one `ConnOp` (package `proxy` is
missing). -/
def ConnOp.apply : ConnOp → Connection → Connection
  | ConnOp.Write sender, c => c.Write sender
  | ConnOp.Close, c => c.Close
  | ConnOp.writable, c => c.writable
  | ConnOp.shutdownDone, c => c.shutdownDone
  | ConnOp.fail cause, c => c.fail cause

/-- Modelled from the spec: a sequence of operations on a Connection, first one
first (package `proxy` is missing). -/
def runOps (ops : List ConnOp) (c : Connection) : Connection :=
  ops.foldl (fun acc op => op.apply acc) c

/-! ## The Handshake Negotiator of package `proxycore` (design, section 4.5) -/

/-- Modelled from the spec: the frames the negotiator sends (section 6);
package `proxycore` is missing. -/
inductive Request where
  | versionProposal (version : Nat)
  | authResponse (credentials : List Nat)
deriving DecidableEq, Repr

/-- Modelled from the spec: the frames a server answers with (section 6);
package `proxycore` is missing. -/
inductive Reply where
  | versionMismatch (serverVersion : Nat)
  | authenticate (challenge : List Nat)
  | ready
  | authSuccess
  | errorFrame
deriving DecidableEq, Repr

/-- Modelled from the spec: the Auth Provider capability of section 4.6, from a
challenge to credential bytes, `none` for `CredentialsError` (package
`proxycore` is missing). -/
abbrev AuthProvider := List Nat → Option (List Nat)

/-- Modelled from the spec: the default Auth Provider of section 4.6, a PLAIN
blob of null-separated username and password (package `proxycore` is
missing). -/
def Auth.provider (a : Auth) : AuthProvider :=
  fun _challenge =>
    some (0 :: a.username.toUTF8.toList.map UInt8.toNat
      ++ 0 :: a.password.toUTF8.toList.map UInt8.toNat)

/-- Modelled from the spec: the `HandshakeResult` of section 3 (package
`proxycore` is missing). -/
structure HandshakeResult where
  version : Nat
  authenticated : Bool
deriving DecidableEq, Repr

/-- Modelled from the spec: a handshake as observed, the frames sent in order
and the result (package `proxycore` is missing). -/
structure HandshakeRun where
  sent : List Request
  result : Except ErrKind HandshakeResult
deriving DecidableEq, Repr

/-- Modelled from the spec: state `Authenticating` of section 4.5 (package
`proxycore` is missing).  `replies` are the frames that arrive before the
deadline. -/
def authenticating (auth : AuthProvider) (version : Nat) (challenge : List Nat)
    (replies : List Reply) : HandshakeRun :=
  match auth challenge with
  | none => ⟨[], .error ErrKind.credentialsError⟩
  | some credentials =>
    match replies with
    | [] => ⟨[Request.authResponse credentials], .error ErrKind.timeoutError⟩
    | Reply.authSuccess :: _ => ⟨[Request.authResponse credentials], .ok ⟨version, true⟩⟩
    | Reply.errorFrame :: _ => ⟨[Request.authResponse credentials], .error ErrKind.authError⟩
    | _ :: _ => ⟨[Request.authResponse credentials], .error ErrKind.other⟩

/-- Modelled from the spec: states `Start` and `VersionProposed` of
section 4.5 (package `proxycore` is missing).  A proposal at `version` is sent;
`downgraded` tells whether this attempt already retried at the server's
version; `replies` are the frames that arrive before the deadline. -/
def proposeVersion (auth : AuthProvider) : Nat → Bool → List Reply → HandshakeRun
  | version, _, [] => ⟨[Request.versionProposal version], .error ErrKind.timeoutError⟩
  | version, downgraded, Reply.versionMismatch serverVersion :: rest =>
    if downgraded then ⟨[Request.versionProposal version], .error ErrKind.versionError⟩
    else
      let retry := proposeVersion auth serverVersion true rest
      ⟨Request.versionProposal version :: retry.sent, retry.result⟩
  | version, _, Reply.ready :: _ => ⟨[Request.versionProposal version], .ok ⟨version, false⟩⟩
  | version, _, Reply.authenticate challenge :: rest =>
    let run := authenticating auth version challenge rest
    ⟨Request.versionProposal version :: run.sent, run.result⟩
  | version, _, _ :: _ => ⟨[Request.versionProposal version], .error ErrKind.other⟩

/-- Modelled from the spec: `Handshake(ctx, requestedVersion, auth)` of
section 4.5 on an open Connection whose server answers `replies` before the
deadline (package `proxycore` is missing). -/
def Handshake (replies : List Reply) (requestedVersion : Nat) (auth : AuthProvider) :
    HandshakeRun :=
  proposeVersion auth requestedVersion false replies

/-- Modelled from the spec: the version proposals among the frames sent
(package `proxycore` is missing). -/
def versionProposals (sent : List Request) : List Nat :=
  sent.filterMap fun r =>
    match r with
    | Request.versionProposal v => some v
    | Request.authResponse _ => none

/-! ## The Cluster Connector of package `proxycore` (design, section 4.4) -/

/-- Modelled from the spec: the causes of `ConnectError` (section 4.1); package
`proxy` is missing. -/
inductive ConnectCause where
  | refused
  | timeout
  | dns
deriving DecidableEq, Repr

/-- Modelled from the spec: the network seen by the connector, whether
`Connection.Connect` to an endpoint succeeds and what the server there answers
during a handshake (packages `proxy` and `proxycore` are missing). -/
structure Network where
  connect : Endpoint → Except ConnectCause Unit
  server : Endpoint → List Reply

/-- Modelled from the spec: the failure of one endpoint, in `Connect` or in the
handshake (section 4.4; package `proxycore` is missing). -/
inductive AttemptError where
  | connect (cause : ConnectCause)
  | handshake (kind : ErrKind)
deriving DecidableEq, Repr

/-- Modelled from the spec: the errors of `ConnectToCluster` (sections 4.4 and
7; package `proxycore` is missing). -/
inductive ClusterError where
  | CancelledError
  | ClusterConnectError (subErrors : List (Endpoint × AttemptError))
deriving DecidableEq, Repr

/-- Modelled from the spec: the live Connection returned by `ConnectToCluster`
with its negotiated version and the error history of the endpoints tried before
it (sections 4.4 and 8; package `proxycore` is missing). -/
structure ClusterConn where
  endpoint : Endpoint
  result : HandshakeResult
  history : List (Endpoint × AttemptError)
deriving DecidableEq, Repr

/-- Modelled from the spec: a pass of the connector as observed, the endpoints
to which a socket attempt was started, in order, and the result (package
`proxycore` is missing). -/
structure ConnectorRun where
  attempted : List Endpoint
  result : Except ClusterError ClusterConn
deriving DecidableEq, Repr

/-- Modelled from the spec: one endpoint attempt of section 4.4, `Connect` and
on success the handshake (package `proxycore` is missing). -/
def attemptEndpoint (net : Network) (version : Nat) (auth : AuthProvider) (ep : Endpoint) :
    Except AttemptError HandshakeResult :=
  match net.connect ep with
  | .error cause => .error (AttemptError.connect cause)
  | .ok () =>
    match (Handshake (net.server ep) version auth).result with
    | .error kind => .error (AttemptError.handshake kind)
    | .ok r => .ok r

/-- Modelled from the spec: the endpoint loop of section 4.4 (package
`proxycore` is missing).  `k` is the position of the next endpoint and `history`
the failures recorded so far; cancellation is consulted before each attempt. -/
def connectLoop (net : Network) (ctx : Context) (version : Nat) (auth : AuthProvider) :
    List Endpoint → Nat → List (Endpoint × AttemptError) → ConnectorRun
  | [], _, history => ⟨[], .error (ClusterError.ClusterConnectError history)⟩
  | ep :: rest, k, history =>
    if ctx.done k then ⟨[], .error ClusterError.CancelledError⟩
    else
      match attemptEndpoint net version auth ep with
      | .ok r => ⟨[ep], .ok ⟨ep, r, history⟩⟩
      | .error e =>
        let next := connectLoop net ctx version auth rest (k + 1) (history ++ [(ep, e)])
        ⟨ep :: next.attempted, next.result⟩

/-- Modelled from the spec: `ConnectToCluster(ctx, version, auth, factory)` of
section 4.4, on the factory's ordered contact points (package `proxycore` is
missing). -/
def ConnectToCluster (net : Network) (ctx : Context) (version : Nat) (auth : AuthProvider)
    (contactPoints : List Endpoint) : ConnectorRun :=
  connectLoop net ctx version auth contactPoints 0 []

/-- The endpoints passed to `ClusterConnect` in a trace, in order. -/
def connectedEndpoints {β φ κ : Type} (tr : List (Event β φ κ)) : List Endpoint :=
  tr.filterMap fun ev =>
    match ev with
    | .ClusterConnect _ ep => some ep
    | _ => none

/-- The Connections on which `Close` is invoked in a trace, in order. -/
def closeCalls {β φ κ : Type} (tr : List (Event β φ κ)) : List κ :=
  tr.filterMap fun ev =>
    match ev with
    | .Close conn => some conn
    | _ => none

/-- The messages of the `log.Fatalf` calls in a trace, in order. -/
def fatalMessages {β φ κ : Type} (tr : List (Event β φ κ)) : List String :=
  tr.filterMap fun ev =>
    match ev with
    | .Fatalf message => some message
    | _ => none

/-- The format of the `log.Fatalf` that reports a failure of each phase in
`connWithBundleEx` (lines 206, 211, 218 and 224), up to its `%v`. -/
def phaseFormat : Phase → String
  | .bundle => "unable to open bundle: "
  | .resolve => "unable to resolve endpoints: "
  | .connect => "unable to connect to cluster: "
  | .handshake => "unable to connect to cluster: "

/-- The phases whose call appears in a trace, in order. -/
def phasesCalled {β φ κ : Type} (tr : List (Event β φ κ)) : List Phase :=
  tr.filterMap fun ev =>
    match ev with
    | .LoadBundleZip _ => some Phase.bundle
    | .ResolveAstra _ => some Phase.resolve
    | .ClusterConnect _ _ => some Phase.connect
    | .Handshake _ _ _ _ => some Phase.handshake
    | _ => none

/-- A collaborator set over trivial bundle, factory and Connection values: the
bundle loads, the resolver returns a factory with the contact points `cps`, and
`ClusterConnect` and `Handshake` return what is given. -/
def sampleWorld (cps : List Endpoint) (connect : Except GoError Unit)
    (handshake : Except GoError Nat) : World Unit Unit Unit where
  LoadBundleZip := fun _ => .ok ()
  ResolveAstra := fun _ => .ok ()
  ContactPoints := fun _ => cps
  ClusterConnect := fun _ _ => connect
  Handshake := fun _ _ _ _ => handshake
  ConnectToCluster := fun _ _ _ _ => connect
  Err := fun _ => none

/-- A contact point used in examples. -/
def sampleEndpoint : Endpoint := ⟨"10.0.0.1", 9042⟩

/-- A collaborator set whose `LoadBundleZip` fails with `err`. -/
def sampleWorldNoBundle (err : GoError) : World Unit Unit Unit :=
  { sampleWorld [] (.ok ()) (.ok 4) with LoadBundleZip := fun _ => .error err }

/-- Modelled from the spec: the error history of a run of endpoints, one entry
per endpoint whose attempt fails, in order (section 4.4; package `proxycore` is
missing). -/
def failureHistory (net : Network) (version : Nat) (auth : AuthProvider)
    (eps : List Endpoint) : List (Endpoint × AttemptError) :=
  eps.filterMap fun ep =>
    match attemptEndpoint net version auth ep with
    | .error e => some (ep, e)
    | .ok _ => none

/-- Modelled from the spec: the attempt on an endpoint fails, in `Connect` or in
the handshake (package `proxycore` is missing). -/
def AttemptFails (net : Network) (version : Nat) (auth : AuthProvider) (ep : Endpoint) : Prop :=
  ∃ e, attemptEndpoint net version auth ep = .error e

/-- Modelled from the spec: the scenario of section 8, `10.0.0.1:9042` times
out and `10.0.0.2:9042` asks for PLAIN authentication and accepts it at the
proposed version; any other endpoint refuses the connection (package
`proxycore` is missing). -/
def scenarioNetwork : Network where
  connect := fun ep =>
    if ep = ⟨"10.0.0.1", 9042⟩ then .error ConnectCause.timeout
    else if ep = ⟨"10.0.0.2", 9042⟩ then .ok ()
    else .error ConnectCause.refused
  server := fun _ => [Reply.authenticate [], Reply.authSuccess]

/-- A context whose cancellation signal is set from the check of index `k`
on. -/
def cancelledFrom (k : Nat) : Context := ⟨fun n => decide (k ≤ n)⟩

/-! # Properties -/

/-! ## The wait loops -/

/-- A step of the wait loop of `connClusterWithBundleEx` with a timer that is
not armed leaves the timer, the trace and the timer-case count as they were. -/
theorem clusterWaitStep_stopped {β φ κ : Type} (conn : κ) (s : LoopState β φ κ)
    (e : SelectEnv) (h : s.timer.armed = false) :
    (clusterWaitStep conn s e).timer.armed = false ∧
    (clusterWaitStep conn s e).trace = s.trace ∧
    (clusterWaitStep conn s e).timerTaken = s.timerTaken := by
  unfold clusterWaitStep selectCase Timer.ready
  rw [h]
  cases s.closed <;> cases e.isClosed <;> simp [h]

/-- The same over any number of steps. -/
theorem clusterLoop_stopped {β φ κ : Type} (conn : κ) (envs : List SelectEnv)
    (s : LoopState β φ κ) (h : s.timer.armed = false) :
    (envs.foldl (clusterWaitStep conn) s).timer.armed = false ∧
    (envs.foldl (clusterWaitStep conn) s).trace = s.trace ∧
    (envs.foldl (clusterWaitStep conn) s).timerTaken = s.timerTaken := by
  induction envs generalizing s with
  | nil => simp [h]
  | cons e es ih =>
    obtain ⟨h1, h2, h3⟩ := clusterWaitStep_stopped conn s e h
    obtain ⟨i1, i2, i3⟩ := ih (clusterWaitStep conn s e) h1
    simp only [List.foldl_cons]
    exact ⟨i1, i2.trans h2, i3.trans h3⟩

/-- When the wait loop of `connClusterWithBundleEx` has set `closed`, some
evaluation of its `select` saw the close signal fired. -/
theorem clusterLoop_closed_of {β φ κ : Type} (conn : κ) (envs : List SelectEnv)
    (s : LoopState β φ κ) (h : (envs.foldl (clusterWaitStep conn) s).closed = true) :
    s.closed = true ∨ ∃ e ∈ envs, e.isClosed = true := by
  induction envs generalizing s with
  | nil => left; simpa using h
  | cons e es ih =>
    simp only [List.foldl_cons] at h
    rcases ih _ h with h1 | ⟨e2, he2, h2⟩
    · by_cases hs : s.closed = true
      · exact Or.inl hs
      · right
        refine ⟨e, by simp, ?_⟩
        unfold clusterWaitStep selectCase at h1
        simp only [hs] at h1
        revert h1
        cases e.isClosed <;> cases s.timer.ready e <;> simp [hs]
    · exact Or.inr ⟨e2, by simp [he2], h2⟩

/-! ## The stages of `connClusterWithBundleEx` -/

/-- Course of `connClusterWithBundleEx` when `LoadBundleZip` fails. -/
theorem clusterPhases_bundle_error {β φ κ : Type} (w : World β φ κ) (err : GoError)
    (h : w.LoadBundleZip bundlePath = .error err) :
    connClusterWithBundleExPhases w =
      ([.LoadBundleZip bundlePath, .Fatalf ("unable to open bundle: " ++ fmtErr err)],
        .error (.fatal ("unable to open bundle: " ++ fmtErr err))) := by
  simp only [connClusterWithBundleExPhases, h]

/-- Course of `connClusterWithBundleEx` when `ResolveAstra` fails. -/
theorem clusterPhases_resolve_error {β φ κ : Type} (w : World β φ κ) (bundle : β)
    (err : GoError) (h1 : w.LoadBundleZip bundlePath = .ok bundle)
    (h2 : w.ResolveAstra bundle = .error err) :
    connClusterWithBundleExPhases w =
      ([.LoadBundleZip bundlePath, .ResolveAstra bundle,
          .Fatalf ("unable to resolve astra: " ++ fmtErr err)],
        .error (.fatal ("unable to resolve astra: " ++ fmtErr err))) := by
  simp only [connClusterWithBundleExPhases, h1, h2]

/-- Course of `connClusterWithBundleEx` when `ConnectToCluster` fails. -/
theorem clusterPhases_connect_error {β φ κ : Type} (w : World β φ κ) (bundle : β)
    (factory : φ) (err : GoError) (h1 : w.LoadBundleZip bundlePath = .ok bundle)
    (h2 : w.ResolveAstra bundle = .ok factory)
    (h3 : w.ConnectToCluster Context.Background ProtocolVersion4
      (NewDefaultAuth mainUsername mainPassword) factory = .error err) :
    connClusterWithBundleExPhases w =
      ([.LoadBundleZip bundlePath, .ResolveAstra bundle,
          .ConnectToCluster Context.Background ProtocolVersion4
            (NewDefaultAuth mainUsername mainPassword) factory,
          .Fatalf ("unable to connect to cluster: " ++ fmtErr err)],
        .error (.fatal ("unable to connect to cluster: " ++ fmtErr err))) := by
  simp only [connClusterWithBundleExPhases, h1, h2, h3]

/-- Course of `connClusterWithBundleEx` when its three stages succeed. -/
theorem clusterPhases_ok {β φ κ : Type} (w : World β φ κ) (bundle : β)
    (factory : φ) (conn : κ) (h1 : w.LoadBundleZip bundlePath = .ok bundle)
    (h2 : w.ResolveAstra bundle = .ok factory)
    (h3 : w.ConnectToCluster Context.Background ProtocolVersion4
      (NewDefaultAuth mainUsername mainPassword) factory = .ok conn) :
    connClusterWithBundleExPhases w =
      ([.LoadBundleZip bundlePath, .ResolveAstra bundle,
          .ConnectToCluster Context.Background ProtocolVersion4
            (NewDefaultAuth mainUsername mainPassword) factory],
        .ok conn) := by
  simp only [connClusterWithBundleExPhases, h1, h2, h3]

/-- The straight-line part of `connClusterWithBundleEx` takes one of four
courses, according to the first stage that returns an error. -/
theorem clusterPhases_cases {β φ κ : Type} (w : World β φ κ) :
    (∃ err, w.LoadBundleZip bundlePath = .error err ∧
      connClusterWithBundleExPhases w =
        ([.LoadBundleZip bundlePath, .Fatalf ("unable to open bundle: " ++ fmtErr err)],
          .error (.fatal ("unable to open bundle: " ++ fmtErr err)))) ∨
    (∃ bundle err, w.LoadBundleZip bundlePath = .ok bundle ∧
      w.ResolveAstra bundle = .error err ∧
      connClusterWithBundleExPhases w =
        ([.LoadBundleZip bundlePath, .ResolveAstra bundle,
            .Fatalf ("unable to resolve astra: " ++ fmtErr err)],
          .error (.fatal ("unable to resolve astra: " ++ fmtErr err)))) ∨
    (∃ bundle factory err, w.LoadBundleZip bundlePath = .ok bundle ∧
      w.ResolveAstra bundle = .ok factory ∧
      w.ConnectToCluster Context.Background ProtocolVersion4
        (NewDefaultAuth mainUsername mainPassword) factory = .error err ∧
      connClusterWithBundleExPhases w =
        ([.LoadBundleZip bundlePath, .ResolveAstra bundle,
            .ConnectToCluster Context.Background ProtocolVersion4
              (NewDefaultAuth mainUsername mainPassword) factory,
            .Fatalf ("unable to connect to cluster: " ++ fmtErr err)],
          .error (.fatal ("unable to connect to cluster: " ++ fmtErr err)))) ∨
    (∃ bundle factory conn, w.LoadBundleZip bundlePath = .ok bundle ∧
      w.ResolveAstra bundle = .ok factory ∧
      w.ConnectToCluster Context.Background ProtocolVersion4
        (NewDefaultAuth mainUsername mainPassword) factory = .ok conn ∧
      connClusterWithBundleExPhases w =
        ([.LoadBundleZip bundlePath, .ResolveAstra bundle,
            .ConnectToCluster Context.Background ProtocolVersion4
              (NewDefaultAuth mainUsername mainPassword) factory],
          .ok conn)) := by
  cases h1 : w.LoadBundleZip bundlePath with
  | error err => exact Or.inl ⟨err, rfl, clusterPhases_bundle_error w err h1⟩
  | ok bundle =>
    cases h2 : w.ResolveAstra bundle with
    | error err =>
      exact Or.inr (Or.inl ⟨bundle, err, rfl, h2, clusterPhases_resolve_error w bundle err h1 h2⟩)
    | ok factory =>
      cases h3 : w.ConnectToCluster Context.Background ProtocolVersion4
        (NewDefaultAuth mainUsername mainPassword) factory with
      | error err =>
        exact Or.inr (Or.inr (Or.inl ⟨bundle, factory, err, rfl, h2, h3,
          clusterPhases_connect_error w bundle factory err h1 h2 h3⟩))
      | ok conn =>
        exact Or.inr (Or.inr (Or.inr ⟨bundle, factory, conn, rfl, h2, h3,
          clusterPhases_ok w bundle factory conn h1 h2 h3⟩))

/-! ## The phases of `connWithBundleEx` -/

/-- The phases of `connWithBundleEx` take one of six courses: the first phase
that returns an error is reported by `log.Fatalf`, an empty contact-point list
panics at the index expression, and otherwise the Connection is negotiated. -/
theorem bundlePhases_cases {β φ κ : Type} (w : World β φ κ) :
    (∃ err, w.LoadBundleZip bundlePath = .error err ∧
      connWithBundleExPhases w =
        ([.LoadBundleZip bundlePath, .Fatalf ("unable to open bundle: " ++ fmtErr err)],
          .error (.fatal ("unable to open bundle: " ++ fmtErr err)))) ∨
    (∃ bundle err, w.LoadBundleZip bundlePath = .ok bundle ∧
      w.ResolveAstra bundle = .error err ∧
      connWithBundleExPhases w =
        ([.LoadBundleZip bundlePath, .ResolveAstra bundle,
            .Fatalf ("unable to resolve endpoints: " ++ fmtErr err)],
          .error (.fatal ("unable to resolve endpoints: " ++ fmtErr err)))) ∨
    (∃ bundle factory, w.LoadBundleZip bundlePath = .ok bundle ∧
      w.ResolveAstra bundle = .ok factory ∧ w.ContactPoints factory = [] ∧
      connWithBundleExPhases w =
        ([.LoadBundleZip bundlePath, .ResolveAstra bundle], .error (.panic 0 0))) ∨
    (∃ bundle factory ep rest err, w.LoadBundleZip bundlePath = .ok bundle ∧
      w.ResolveAstra bundle = .ok factory ∧ w.ContactPoints factory = ep :: rest ∧
      w.ClusterConnect Context.Background ep = .error err ∧
      connWithBundleExPhases w =
        ([.LoadBundleZip bundlePath, .ResolveAstra bundle,
            .ClusterConnect Context.Background ep,
            .Fatalf ("unable to connect to cluster: " ++ fmtErr err)],
          .error (.fatal ("unable to connect to cluster: " ++ fmtErr err)))) ∨
    (∃ bundle factory ep rest conn err, w.LoadBundleZip bundlePath = .ok bundle ∧
      w.ResolveAstra bundle = .ok factory ∧ w.ContactPoints factory = ep :: rest ∧
      w.ClusterConnect Context.Background ep = .ok conn ∧
      w.Handshake conn Context.Background ProtocolVersion4
        (NewDefaultAuth mainUsername mainPassword) = .error err ∧
      connWithBundleExPhases w =
        ([.LoadBundleZip bundlePath, .ResolveAstra bundle,
            .ClusterConnect Context.Background ep,
            .Handshake conn Context.Background ProtocolVersion4
              (NewDefaultAuth mainUsername mainPassword),
            .Fatalf ("unable to connect to cluster: " ++ fmtErr err)],
          .error (.fatal ("unable to connect to cluster: " ++ fmtErr err)))) ∨
    (∃ bundle factory ep rest conn version, w.LoadBundleZip bundlePath = .ok bundle ∧
      w.ResolveAstra bundle = .ok factory ∧ w.ContactPoints factory = ep :: rest ∧
      w.ClusterConnect Context.Background ep = .ok conn ∧
      w.Handshake conn Context.Background ProtocolVersion4
        (NewDefaultAuth mainUsername mainPassword) = .ok version ∧
      connWithBundleExPhases w =
        ([.LoadBundleZip bundlePath, .ResolveAstra bundle,
            .ClusterConnect Context.Background ep,
            .Handshake conn Context.Background ProtocolVersion4
              (NewDefaultAuth mainUsername mainPassword)],
          .ok (conn, version))) := by
  cases h1 : w.LoadBundleZip bundlePath with
  | error err =>
    exact Or.inl ⟨err, rfl, by simp only [connWithBundleExPhases, h1]⟩
  | ok bundle =>
    cases h2 : w.ResolveAstra bundle with
    | error err =>
      exact Or.inr (Or.inl ⟨bundle, err, rfl, h2, by simp only [connWithBundleExPhases, h1, h2]⟩)
    | ok factory =>
      cases h3 : w.ContactPoints factory with
      | nil =>
        exact Or.inr (Or.inr (Or.inl ⟨bundle, factory, rfl, h2, h3,
          by simp only [connWithBundleExPhases, h1, h2, h3]⟩))
      | cons ep rest =>
        cases h4 : w.ClusterConnect Context.Background ep with
        | error err =>
          exact Or.inr (Or.inr (Or.inr (Or.inl ⟨bundle, factory, ep, rest, err, rfl, h2, h3, h4,
            by simp only [connWithBundleExPhases, h1, h2, h3, h4]⟩)))
        | ok conn =>
          cases h5 : w.Handshake conn Context.Background ProtocolVersion4
            (NewDefaultAuth mainUsername mainPassword) with
          | error err =>
            exact Or.inr (Or.inr (Or.inr (Or.inr (Or.inl ⟨bundle, factory, ep, rest, conn, err,
              rfl, h2, h3, h4, h5, by simp only [connWithBundleExPhases, h1, h2, h3, h4, h5]⟩))))
          | ok version =>
            exact Or.inr (Or.inr (Or.inr (Or.inr (Or.inr ⟨bundle, factory, ep, rest, conn,
              version, rfl, h2, h3, h4, h5,
              by simp only [connWithBundleExPhases, h1, h2, h3, h4, h5]⟩))))

/-- The trace of `connClusterWithBundleEx` is the trace of its stages, followed
by the final `Sleep` when the function returned. -/
theorem connClusterWithBundleEx_trace {β φ κ : Type} (w : World β φ κ) (envs : List SelectEnv) :
    (connClusterWithBundleEx w envs).trace = (connClusterWithBundleExPhases w).1 ∨
    (connClusterWithBundleEx w envs).trace = (connClusterWithBundleExPhases w).1 ++ [.Sleep 2] := by
  unfold connClusterWithBundleEx
  rcases hp : connClusterWithBundleExPhases w with ⟨tr, r⟩
  cases r with
  | error stop => left; rfl
  | ok conn =>
    have hl := clusterLoop_stopped conn envs (clusterLoopInit tr) rfl
    simp only [finishLoop]
    split
    · right; rw [hl.2.1]; rfl
    · left; rw [hl.2.1]; rfl

/-- Every call in the trace of `connClusterWithBundleEx` is a call of its
stages or the final `Sleep`. -/
theorem connClusterWithBundleEx_mem {β φ κ : Type} (w : World β φ κ) (envs : List SelectEnv)
    (ev : Event β φ κ) (h : ev ∈ (connClusterWithBundleEx w envs).trace) :
    ev ∈ (connClusterWithBundleExPhases w).1 ∨ ev = .Sleep 2 := by
  rcases connClusterWithBundleEx_trace w envs with h1 | h1
  · rw [h1] at h; exact Or.inl h
  · rw [h1] at h; simpa using h

/-- C1: in `connClusterWithBundleEx`, the only function `main` calls, with
`LoadBundleZip`, `ResolveAstra` and `ConnectToCluster` arbitrary collaborators:
`ResolveAstra` is invoked only if `LoadBundleZip` returned no error, and on
exactly the bundle it returned; `ConnectToCluster` is invoked only if
`ResolveAstra` returned no error, and on exactly the factory it returned;
`ClusterConnect`, which takes an endpoint, is never invoked; a stage that
succeeds is followed by the next one; and when a stage returns an error no
later stage is invoked and the process exits. -/
theorem connClusterWithBundleEx_stage_order {β φ κ : Type} (w : World β φ κ)
    (envs : List SelectEnv) :
    main w envs = connClusterWithBundleEx w envs ∧
    (∀ b, Event.ResolveAstra b ∈ (connClusterWithBundleEx w envs).trace →
      w.LoadBundleZip bundlePath = .ok b) ∧
    (∀ ctx version auth f,
      Event.ConnectToCluster ctx version auth f ∈ (connClusterWithBundleEx w envs).trace →
      ∃ b, w.LoadBundleZip bundlePath = .ok b ∧ w.ResolveAstra b = .ok f) ∧
    (∀ ctx ep, Event.ClusterConnect ctx ep ∉ (connClusterWithBundleEx w envs).trace) ∧
    (∀ b, w.LoadBundleZip bundlePath = .ok b →
      Event.ResolveAstra b ∈ (connClusterWithBundleEx w envs).trace) ∧
    (∀ b f, w.LoadBundleZip bundlePath = .ok b → w.ResolveAstra b = .ok f →
      Event.ConnectToCluster Context.Background ProtocolVersion4
        (NewDefaultAuth mainUsername mainPassword) f ∈ (connClusterWithBundleEx w envs).trace) ∧
    (∀ err, w.LoadBundleZip bundlePath = .error err →
      (∀ b, Event.ResolveAstra b ∉ (connClusterWithBundleEx w envs).trace) ∧
      (∀ ctx version auth f,
        Event.ConnectToCluster ctx version auth f ∉ (connClusterWithBundleEx w envs).trace) ∧
      (connClusterWithBundleEx w envs).status = Status.exited 1) ∧
    (∀ b err, w.LoadBundleZip bundlePath = .ok b → w.ResolveAstra b = .error err →
      (∀ ctx version auth f,
        Event.ConnectToCluster ctx version auth f ∉ (connClusterWithBundleEx w envs).trace) ∧
      (connClusterWithBundleEx w envs).status = Status.exited 1) := by
  have hm := connClusterWithBundleEx_mem w envs
  have hsub : ∀ ev, ev ∈ (connClusterWithBundleExPhases w).1 →
      ev ∈ (connClusterWithBundleEx w envs).trace := by
    intro ev hev
    rcases connClusterWithBundleEx_trace w envs with h1 | h1
    · rw [h1]; exact hev
    · rw [h1]; exact List.mem_append_left _ hev
  refine ⟨rfl, ?_, ?_, ?_, ?_, ?_, ?_, ?_⟩
  · intro b hb
    rcases hm _ hb with h | h
    · rcases clusterPhases_cases w with ⟨err, h1, hp⟩ | ⟨b2, err, h1, h2, hp⟩ |
        ⟨b2, f, err, h1, h2, h3, hp⟩ | ⟨b2, f, c, h1, h2, h3, hp⟩ <;>
      · rw [hp] at h
        simp at h
        try (rw [h]; exact h1)
    · cases h
  · intro ctx version auth f hb
    rcases hm _ hb with h | h
    · rcases clusterPhases_cases w with ⟨err, h1, hp⟩ | ⟨b2, err, h1, h2, hp⟩ |
        ⟨b2, f2, err, h1, h2, h3, hp⟩ | ⟨b2, f2, c, h1, h2, h3, hp⟩ <;>
      · rw [hp] at h
        simp at h
        try (exact ⟨b2, h1, by rw [h.2.2.2]; exact h2⟩)
    · cases h
  · intro ctx ep hb
    rcases hm _ hb with h | h
    · rcases clusterPhases_cases w with ⟨err, h1, hp⟩ | ⟨b2, err, h1, h2, hp⟩ |
        ⟨b2, f2, err, h1, h2, h3, hp⟩ | ⟨b2, f2, c, h1, h2, h3, hp⟩ <;>
      · rw [hp] at h
        simp at h
    · cases h
  · intro b h1
    apply hsub
    rcases clusterPhases_cases w with ⟨err, g1, hp⟩ | ⟨b2, err, g1, h2, hp⟩ |
        ⟨b2, f2, err, g1, h2, h3, hp⟩ | ⟨b2, f2, c, g1, h2, h3, hp⟩ <;>
    · rw [h1] at g1
      cases g1
      try (rw [hp]; simp)
  · intro b f h1 h2
    apply hsub
    rcases clusterPhases_cases w with ⟨err, g1, hp⟩ | ⟨b2, err, g1, g2, hp⟩ |
        ⟨b2, f2, err, g1, g2, h3, hp⟩ | ⟨b2, f2, c, g1, g2, h3, hp⟩ <;>
    · rw [h1] at g1
      cases g1
      try (rw [h2] at g2; cases g2)
      try (rw [hp]; simp)
  · intro err h1
    have hp := clusterPhases_bundle_error w err h1
    refine ⟨?_, ?_, ?_⟩
    · intro b hb
      rcases hm _ hb with h | h
      · rw [hp] at h; simp at h
      · cases h
    · intro ctx version auth f hb
      rcases hm _ hb with h | h
      · rw [hp] at h; simp at h
      · cases h
    · simp only [connClusterWithBundleEx, hp, Stop.status]
  · intro b err h1 h2
    have hp := clusterPhases_resolve_error w b err h1 h2
    refine ⟨?_, ?_⟩
    · intro ctx version auth f hb
      rcases hm _ hb with h | h
      · rw [hp] at h; simp at h
      · cases h
    · simp only [connClusterWithBundleEx, hp, Stop.status]

/-- C8: in `connClusterWithBundleEx` the timer is stopped before the wait loop
starts, so that on every execution the case `<-timer.C` is never taken,
`conn.Close()` is never invoked, and the loop sets `closed = true` only in an
evaluation of the `select` at which the Connection's `IsClosed` signal has
fired; the function returns only if that happened. -/
theorem connClusterWithBundleEx_timer_stopped {β φ κ : Type} (w : World β φ κ)
    (envs : List SelectEnv) :
    (clusterLoopInit ([] : List (Event β φ κ))).timer.armed = false ∧
    (∀ (conn : κ) (tr : List (Event β φ κ)),
      (envs.foldl (clusterWaitStep conn) (clusterLoopInit tr)).timerTaken = 0) ∧
    closeCalls (connClusterWithBundleEx w envs).trace = [] ∧
    (∀ (conn : κ) (tr : List (Event β φ κ)) (e : SelectEnv),
      (envs.foldl (clusterWaitStep conn) (clusterLoopInit tr)).closed = false →
      (clusterWaitStep conn (envs.foldl (clusterWaitStep conn) (clusterLoopInit tr)) e).closed
        = true →
      e.isClosed = true) ∧
    ((connClusterWithBundleEx w envs).status = Status.returned →
      ∃ e ∈ envs, e.isClosed = true) := by
  refine ⟨rfl, ?_, ?_, ?_, ?_⟩
  · intro conn tr
    exact (clusterLoop_stopped conn envs (clusterLoopInit tr) rfl).2.2
  · have hp : closeCalls (connClusterWithBundleExPhases w).1 = [] := by
      rcases clusterPhases_cases w with ⟨err, h1, hp⟩ | ⟨b2, err, h1, h2, hp⟩ |
        ⟨b2, f2, err, h1, h2, h3, hp⟩ | ⟨b2, f2, c, h1, h2, h3, hp⟩ <;>
      · rw [hp]; rfl
    rcases connClusterWithBundleEx_trace w envs with h | h
    · rw [h]; exact hp
    · rw [h]
      unfold closeCalls at hp ⊢
      rw [List.filterMap_append, hp]
      rfl
  · intro conn tr e h1 h2
    have h3 := clusterLoop_closed_of conn [e] _ h2
    simpa [h1] using h3
  · intro h
    unfold connClusterWithBundleEx at h
    rcases hp : connClusterWithBundleExPhases w with ⟨tr, r⟩
    rw [hp] at h
    cases r with
    | error stop => cases stop <;> simp [Stop.status] at h
    | ok conn =>
      simp only [finishLoop] at h
      split at h
      · rename_i hc
        rcases clusterLoop_closed_of conn envs _ hc with h0 | h0
        · simp [clusterLoopInit] at h0
        · exact h0
      · simp at h

/-- A step of the wait loop of `connWithBundleEx` appends to the trace at most
one call, a `Printf` or a `Close` of the Connection. -/
theorem bundleWaitStep_trace {β φ κ : Type} (w : World β φ κ) (conn : κ)
    (s : LoopState β φ κ) (e : SelectEnv) :
    ∃ extra, (bundleWaitStep w conn s e).trace = s.trace ++ extra ∧
      ∀ ev ∈ extra, ev = Event.Close conn ∨ ∃ m, ev = Event.Printf m := by
  unfold bundleWaitStep
  split
  · exact ⟨[], by simp, by simp⟩
  · split
    · exact ⟨[], by simp, by simp⟩
    · exact ⟨[.Printf ("closed " ++ fmtErrOpt (w.Err conn))], rfl, by simp⟩
    · exact ⟨[.Close conn], rfl, by simp⟩

/-- The same over any number of steps. -/
theorem bundleLoop_trace {β φ κ : Type} (w : World β φ κ) (conn : κ)
    (envs : List SelectEnv) (s : LoopState β φ κ) :
    ∃ extra, (envs.foldl (bundleWaitStep w conn) s).trace = s.trace ++ extra ∧
      ∀ ev ∈ extra, ev = Event.Close conn ∨ ∃ m, ev = Event.Printf m := by
  induction envs generalizing s with
  | nil => exact ⟨[], by simp, by simp⟩
  | cons e es ih =>
    obtain ⟨x1, h1, g1⟩ := bundleWaitStep_trace w conn s e
    obtain ⟨x2, h2, g2⟩ := ih (bundleWaitStep w conn s e)
    refine ⟨x1 ++ x2, ?_, ?_⟩
    · simp only [List.foldl_cons]
      rw [h2, h1, List.append_assoc]
    · intro ev hev
      rcases List.mem_append.1 hev with h | h
      · exact g1 ev h
      · exact g2 ev h

/-- The trace of `connWithBundleEx`: the calls of its phases, then, when the
phases succeeded, calls made by the wait loop and the final `Sleep`. -/
theorem connWithBundleEx_trace {β φ κ : Type} (w : World β φ κ) (envs : List SelectEnv) :
    ∃ extra, (connWithBundleEx w envs).trace = (connWithBundleExPhases w).1 ++ extra ∧
      ∀ ev ∈ extra, (∃ conn version, (connWithBundleExPhases w).2 = .ok (conn, version) ∧
        (ev = Event.Close conn ∨ (∃ m, ev = Event.Printf m) ∨ ev = Event.Sleep 2)) := by
  unfold connWithBundleEx
  rcases hp : connWithBundleExPhases w with ⟨tr, r⟩
  cases r with
  | error stop => exact ⟨[], by simp, by simp⟩
  | ok cv =>
    obtain ⟨conn, version⟩ := cv
    obtain ⟨x, h1, g1⟩ := bundleLoop_trace w conn envs ⟨false, NewTimer, tr, 0⟩
    simp only [finishLoop]
    split
    · refine ⟨x ++ [.Sleep 2], ?_, ?_⟩
      · simp only [h1, List.append_assoc]
      · intro ev hev
        refine ⟨conn, version, rfl, ?_⟩
        rcases List.mem_append.1 hev with h | h
        · rcases g1 ev h with h2 | h2
          · exact Or.inl h2
          · exact Or.inr (Or.inl h2)
        · right; right; simpa using h
    · refine ⟨x, h1, ?_⟩
      intro ev hev
      refine ⟨conn, version, rfl, ?_⟩
      rcases g1 ev hev with h2 | h2
      · exact Or.inl h2
      · exact Or.inr (Or.inl h2)

/-- The wait loop does not call `ClusterConnect`. -/
theorem connWithBundleEx_connected {β φ κ : Type} (w : World β φ κ) (envs : List SelectEnv) :
    connectedEndpoints (connWithBundleEx w envs).trace =
      connectedEndpoints (connWithBundleExPhases w).1 := by
  obtain ⟨x, h1, g1⟩ := connWithBundleEx_trace w envs
  have hx : connectedEndpoints x = [] := by
    unfold connectedEndpoints
    rw [List.filterMap_eq_nil_iff]
    intro ev hev
    obtain ⟨conn, version, -, h | ⟨m, h⟩ | h⟩ := g1 ev hev <;> rw [h]
  have happ : connectedEndpoints ((connWithBundleExPhases w).1 ++ x) =
      connectedEndpoints (connWithBundleExPhases w).1 ++ connectedEndpoints x := by
    unfold connectedEndpoints
    exact List.filterMap_append _ _ _
  rw [h1, happ, hx, List.append_nil]

/-- The wait loop does not call `log.Fatalf`. -/
theorem connWithBundleEx_fatal {β φ κ : Type} (w : World β φ κ) (envs : List SelectEnv) :
    fatalMessages (connWithBundleEx w envs).trace =
      fatalMessages (connWithBundleExPhases w).1 := by
  obtain ⟨x, h1, g1⟩ := connWithBundleEx_trace w envs
  have hx : fatalMessages x = [] := by
    unfold fatalMessages
    rw [List.filterMap_eq_nil_iff]
    intro ev hev
    obtain ⟨conn, version, -, h | ⟨m, h⟩ | h⟩ := g1 ev hev <;> rw [h]
  have happ : fatalMessages ((connWithBundleExPhases w).1 ++ x) =
      fatalMessages (connWithBundleExPhases w).1 ++ fatalMessages x := by
    unfold fatalMessages
    exact List.filterMap_append _ _ _
  rw [h1, happ, hx, List.append_nil]

/-- The status of `connWithBundleEx` when its phases stop the program. -/
theorem connWithBundleEx_status_stop {β φ κ : Type} (w : World β φ κ) (envs : List SelectEnv)
    (stop : Stop) (h : (connWithBundleExPhases w).2 = .error stop) :
    (connWithBundleEx w envs).status = stop.status ∧
    (connWithBundleEx w envs).trace = (connWithBundleExPhases w).1 := by
  unfold connWithBundleEx
  rcases hp : connWithBundleExPhases w with ⟨tr, r⟩
  rw [hp] at h
  simp only at h
  subst h
  exact ⟨rfl, rfl⟩

/-- The status of `connWithBundleEx` when its phases succeed. -/
theorem connWithBundleEx_status_ok {β φ κ : Type} (w : World β φ κ) (envs : List SelectEnv)
    (cv : κ × Nat) (h : (connWithBundleExPhases w).2 = .ok cv) :
    (connWithBundleEx w envs).status = Status.waiting ∨
    (connWithBundleEx w envs).status = Status.returned := by
  unfold connWithBundleEx
  rcases hp : connWithBundleExPhases w with ⟨tr, r⟩
  rw [hp] at h
  simp only at h
  subst h
  simp only [finishLoop]
  split
  · exact Or.inr rfl
  · exact Or.inl rfl

/-- C9: `connWithBundleEx` passes to `ClusterConnect` exactly the first element
of `factory.ContactPoints()` and no other contact point; the index expression
is safe for every non-empty list, and for a factory returned without error
whose list is empty the function panics with an index out of range, without
calling `ClusterConnect` and without reporting through `log.Fatalf`. -/
theorem connWithBundleEx_first_contact_point {β φ κ : Type} (w : World β φ κ)
    (envs : List SelectEnv) :
    (∀ b f ep rest, w.LoadBundleZip bundlePath = .ok b → w.ResolveAstra b = .ok f →
      w.ContactPoints f = ep :: rest →
      connectedEndpoints (connWithBundleEx w envs).trace = [ep] ∧
      ∀ i n, (connWithBundleEx w envs).status ≠ Status.panicked i n) ∧
    (∀ b f, w.LoadBundleZip bundlePath = .ok b → w.ResolveAstra b = .ok f →
      w.ContactPoints f = [] →
      (connWithBundleEx w envs).status = Status.panicked 0 0 ∧
      connectedEndpoints (connWithBundleEx w envs).trace = [] ∧
      fatalMessages (connWithBundleEx w envs).trace = []) ∧
    (connectedEndpoints (connWithBundleEx w envs).trace).length ≤ 1 := by
  rw [connWithBundleEx_connected, connWithBundleEx_fatal]
  refine ⟨?_, ?_, ?_⟩
  · intro b f ep rest h1 h2 h3
    rcases bundlePhases_cases w with ⟨err, g1, hp⟩ | ⟨b2, err, g1, g2, hp⟩ |
      ⟨b2, f2, g1, g2, g3, hp⟩ | ⟨b2, f2, ep2, rest2, err, g1, g2, g3, g4, hp⟩ |
      ⟨b2, f2, ep2, rest2, c, err, g1, g2, g3, g4, g5, hp⟩ |
      ⟨b2, f2, ep2, rest2, c, v, g1, g2, g3, g4, g5, hp⟩
    · rw [h1] at g1; cases g1
    · rw [h1] at g1; cases g1; rw [h2] at g2; cases g2
    · rw [h1] at g1; cases g1; rw [h2] at g2; cases g2; rw [h3] at g3; cases g3
    · rw [h1] at g1; cases g1; rw [h2] at g2; cases g2; rw [h3] at g3; cases g3
      refine ⟨by rw [hp]; rfl, ?_⟩
      intro i n
      rw [(connWithBundleEx_status_stop w envs _ (by rw [hp])).1]
      simp [Stop.status]
    · rw [h1] at g1; cases g1; rw [h2] at g2; cases g2; rw [h3] at g3; cases g3
      refine ⟨by rw [hp]; rfl, ?_⟩
      intro i n
      rw [(connWithBundleEx_status_stop w envs _ (by rw [hp])).1]
      simp [Stop.status]
    · rw [h1] at g1; cases g1; rw [h2] at g2; cases g2; rw [h3] at g3; cases g3
      refine ⟨by rw [hp]; rfl, ?_⟩
      intro i n
      rcases connWithBundleEx_status_ok w envs (c, v) (by rw [hp]) with h | h <;>
        rw [h] <;> simp
  · intro b f h1 h2 h3
    rcases bundlePhases_cases w with ⟨err, g1, hp⟩ | ⟨b2, err, g1, g2, hp⟩ |
      ⟨b2, f2, g1, g2, g3, hp⟩ | ⟨b2, f2, ep2, rest2, err, g1, g2, g3, g4, hp⟩ |
      ⟨b2, f2, ep2, rest2, c, err, g1, g2, g3, g4, g5, hp⟩ |
      ⟨b2, f2, ep2, rest2, c, v, g1, g2, g3, g4, g5, hp⟩
    · rw [h1] at g1; cases g1
    · rw [h1] at g1; cases g1; rw [h2] at g2; cases g2
    · refine ⟨?_, by rw [hp]; rfl, by rw [hp]; rfl⟩
      rw [(connWithBundleEx_status_stop w envs _ (by rw [hp])).1]
      rfl
    · rw [h1] at g1; cases g1; rw [h2] at g2; cases g2; rw [h3] at g3; cases g3
    · rw [h1] at g1; cases g1; rw [h2] at g2; cases g2; rw [h3] at g3; cases g3
    · rw [h1] at g1; cases g1; rw [h2] at g2; cases g2; rw [h3] at g3; cases g3
  · rcases bundlePhases_cases w with ⟨err, g1, hp⟩ | ⟨b2, err, g1, g2, hp⟩ |
      ⟨b2, f2, g1, g2, g3, hp⟩ | ⟨b2, f2, ep2, rest2, err, g1, g2, g3, g4, hp⟩ |
      ⟨b2, f2, ep2, rest2, c, err, g1, g2, g3, g4, g5, hp⟩ |
      ⟨b2, f2, ep2, rest2, c, v, g1, g2, g3, g4, g5, hp⟩ <;>
    · rw [hp]; simp [connectedEndpoints]

/-- C3, as stated, fails: with a Handshake that returns a `TimeoutError` the
function exits through `log.Fatalf` and `conn.Close()` is never invoked, also
when the timer would have been due. -/
theorem connWithBundleEx_timeout_without_close :
    (sampleWorld [sampleEndpoint] (.ok ())
        (.error ⟨ErrKind.timeoutError, "deadline exceeded"⟩)).Handshake ()
      Context.Background ProtocolVersion4 (NewDefaultAuth mainUsername mainPassword)
      = .error ⟨ErrKind.timeoutError, "deadline exceeded"⟩ ∧
    (connWithBundleEx (sampleWorld [sampleEndpoint] (.ok ())
        (.error ⟨ErrKind.timeoutError, "deadline exceeded"⟩))
      [⟨false, true, true⟩, ⟨true, false, false⟩]).status = Status.exited 1 ∧
    closeCalls (connWithBundleEx (sampleWorld [sampleEndpoint] (.ok ())
        (.error ⟨ErrKind.timeoutError, "deadline exceeded"⟩))
      [⟨false, true, true⟩, ⟨true, false, false⟩]).trace = [] :=
  ⟨rfl, rfl, rfl⟩

/-- C3, amended: on every execution of `connWithBundleEx` in which
`conn.Handshake` returns an error, a `TimeoutError` included, the function
reports `unable to connect to cluster: <err>` through `log.Fatalf` right after
the Handshake, the process exits with status 1, and `conn.Close()` is not
invoked. -/
theorem connWithBundleEx_handshake_error_exits {β φ κ : Type} (w : World β φ κ)
    (envs : List SelectEnv) (b : β) (f : φ) (ep : Endpoint) (rest : List Endpoint)
    (conn : κ) (err : GoError)
    (h1 : w.LoadBundleZip bundlePath = .ok b) (h2 : w.ResolveAstra b = .ok f)
    (h3 : w.ContactPoints f = ep :: rest)
    (h4 : w.ClusterConnect Context.Background ep = .ok conn)
    (h5 : w.Handshake conn Context.Background ProtocolVersion4
      (NewDefaultAuth mainUsername mainPassword) = .error err) :
    (connWithBundleEx w envs).status = Status.exited 1 ∧
    (connWithBundleEx w envs).trace =
      [.LoadBundleZip bundlePath, .ResolveAstra b, .ClusterConnect Context.Background ep,
        .Handshake conn Context.Background ProtocolVersion4
          (NewDefaultAuth mainUsername mainPassword),
        .Fatalf ("unable to connect to cluster: " ++ fmtErr err)] ∧
    closeCalls (connWithBundleEx w envs).trace = [] := by
  have hp : connWithBundleExPhases w =
      ([.LoadBundleZip bundlePath, .ResolveAstra b, .ClusterConnect Context.Background ep,
        .Handshake conn Context.Background ProtocolVersion4
          (NewDefaultAuth mainUsername mainPassword),
        .Fatalf ("unable to connect to cluster: " ++ fmtErr err)],
        .error (.fatal ("unable to connect to cluster: " ++ fmtErr err))) := by
    simp only [connWithBundleExPhases, h1, h2, h3, h4, h5]
  obtain ⟨s1, s2⟩ := connWithBundleEx_status_stop w envs _ (by rw [hp])
  rw [s1, s2, hp]
  exact ⟨rfl, rfl, rfl⟩

/-- The amended C3 at a Handshake that times out while the timer is due. -/
theorem connWithBundleEx_handshake_error_exits_witness :
    (connWithBundleEx (sampleWorld [sampleEndpoint] (.ok ())
        (.error ⟨ErrKind.timeoutError, "deadline exceeded"⟩))
      [⟨false, true, true⟩]).status = Status.exited 1 ∧
    (connWithBundleEx (sampleWorld [sampleEndpoint] (.ok ())
        (.error ⟨ErrKind.timeoutError, "deadline exceeded"⟩))
      [⟨false, true, true⟩]).trace =
      [.LoadBundleZip bundlePath, .ResolveAstra (), .ClusterConnect Context.Background sampleEndpoint,
        .Handshake () Context.Background ProtocolVersion4
          (NewDefaultAuth mainUsername mainPassword),
        .Fatalf ("unable to connect to cluster: " ++
          fmtErr ⟨ErrKind.timeoutError, "deadline exceeded"⟩)] ∧
    closeCalls (connWithBundleEx (sampleWorld [sampleEndpoint] (.ok ())
        (.error ⟨ErrKind.timeoutError, "deadline exceeded"⟩))
      [⟨false, true, true⟩]).trace = [] :=
  connWithBundleEx_handshake_error_exits
    (sampleWorld [sampleEndpoint] (.ok ()) (.error ⟨ErrKind.timeoutError, "deadline exceeded"⟩))
    [⟨false, true, true⟩] () () sampleEndpoint [] ()
    ⟨ErrKind.timeoutError, "deadline exceeded"⟩ rfl rfl rfl rfl rfl

/-! ## The reports of `connWithBundleEx` -/

/-- Two strings whose character number 10 differs are different, whatever is
appended to them. -/
theorem append_ne_of_get {p q : String} {c d : Char} (hp : p.data.get? 10 = some c)
    (hq : q.data.get? 10 = some d) (hcd : c ≠ d) (a b : String) : p ++ a ≠ q ++ b := by
  intro h
  have h2 := congrArg String.data h
  simp only [String.data_append] at h2
  have h3 := congrArg (fun l => l.get? 10) h2
  simp only [List.get?_eq_getElem?] at h3 hp hq
  rw [List.getElem?_append_left (by
        by_contra hlt
        rw [List.getElem?_eq_none (by omega)] at hp
        cases hp),
      List.getElem?_append_left (by
        by_contra hlt
        rw [List.getElem?_eq_none (by omega)] at hq
        cases hq), hp, hq] at h3
  exact hcd (Option.some.inj h3)

/-- The reports of the phases differ, except between `connect` and
`handshake`, which share one format. -/
theorem phaseFormat_ne (p1 p2 : Phase) (hne : p1 ≠ p2)
    (h1 : p1 ≠ Phase.connect ∨ p2 ≠ Phase.handshake)
    (h2 : p1 ≠ Phase.handshake ∨ p2 ≠ Phase.connect) (a b : String) :
    phaseFormat p1 ++ a ≠ phaseFormat p2 ++ b := by
  cases p1 <;> cases p2 <;> simp at hne h1 h2
  · exact append_ne_of_get (c := 'o') (d := 'r') (by rfl) (by rfl) (by decide) a b
  · exact append_ne_of_get (c := 'o') (d := 'c') (by rfl) (by rfl) (by decide) a b
  · exact append_ne_of_get (c := 'o') (d := 'c') (by rfl) (by rfl) (by decide) a b
  · exact append_ne_of_get (c := 'r') (d := 'o') (by rfl) (by rfl) (by decide) a b
  · exact append_ne_of_get (c := 'r') (d := 'c') (by rfl) (by rfl) (by decide) a b
  · exact append_ne_of_get (c := 'r') (d := 'c') (by rfl) (by rfl) (by decide) a b
  · exact append_ne_of_get (c := 'c') (d := 'o') (by rfl) (by rfl) (by decide) a b
  · exact append_ne_of_get (c := 'c') (d := 'r') (by rfl) (by rfl) (by decide) a b
  · exact append_ne_of_get (c := 'c') (d := 'o') (by rfl) (by rfl) (by decide) a b
  · exact append_ne_of_get (c := 'c') (d := 'r') (by rfl) (by rfl) (by decide) a b

/-- The wait loop does not call a phase. -/
theorem connWithBundleEx_phasesCalled {β φ κ : Type} (w : World β φ κ)
    (envs : List SelectEnv) :
    phasesCalled (connWithBundleEx w envs).trace =
      phasesCalled (connWithBundleExPhases w).1 := by
  obtain ⟨x, h1, g1⟩ := connWithBundleEx_trace w envs
  have hx : phasesCalled x = [] := by
    unfold phasesCalled
    rw [List.filterMap_eq_nil_iff]
    intro ev hev
    obtain ⟨conn, version, -, h | ⟨m, h⟩ | h⟩ := g1 ev hev <;> rw [h]
  have happ : phasesCalled ((connWithBundleExPhases w).1 ++ x) =
      phasesCalled (connWithBundleExPhases w).1 ++ phasesCalled x := by
    unfold phasesCalled
    exact List.filterMap_append _ _ _
  rw [h1, happ, hx, List.append_nil]

/-- The outcome of `connWithBundleEx` for collaborators whose resolved factory
has a contact point: all phases succeed, or the first failing phase is reported
by one `log.Fatalf` in that phase's format and the process exits. -/
theorem connWithBundleEx_outcome {β φ κ : Type} (w : World β φ κ) (envs : List SelectEnv)
    (hc : HasContactPoint w) :
    (firstFailure w = none ∧
      (∃ conn version, (connWithBundleExPhases w).2 = .ok (conn, version) ∧
        w.Handshake conn Context.Background ProtocolVersion4
          (NewDefaultAuth mainUsername mainPassword) = .ok version) ∧
      (connWithBundleEx w envs).status ≠ Status.exited 1 ∧
      fatalMessages (connWithBundleEx w envs).trace = [] ∧
      phasesCalled (connWithBundleEx w envs).trace =
        [Phase.bundle, Phase.resolve, Phase.connect, Phase.handshake]) ∨
    (∃ p err, firstFailure w = some (p, err) ∧
      (connWithBundleEx w envs).status = Status.exited 1 ∧
      fatalMessages (connWithBundleEx w envs).trace = [phaseFormat p ++ fmtErr err] ∧
      (phasesCalled (connWithBundleEx w envs).trace).getLast? = some p) := by
  rw [connWithBundleEx_fatal, connWithBundleEx_phasesCalled]
  rcases bundlePhases_cases w with ⟨err, g1, hp⟩ | ⟨b2, err, g1, g2, hp⟩ |
    ⟨b2, f2, g1, g2, g3, hp⟩ | ⟨b2, f2, ep2, rest2, err, g1, g2, g3, g4, hp⟩ |
    ⟨b2, f2, ep2, rest2, c, err, g1, g2, g3, g4, g5, hp⟩ |
    ⟨b2, f2, ep2, rest2, c, v, g1, g2, g3, g4, g5, hp⟩
  · right
    refine ⟨Phase.bundle, err, by simp only [firstFailure, g1], ?_, by rw [hp]; rfl,
      by rw [hp]; rfl⟩
    rw [(connWithBundleEx_status_stop w envs _ (by rw [hp])).1]; rfl
  · right
    refine ⟨Phase.resolve, err, by simp only [firstFailure, g1, g2], ?_, by rw [hp]; rfl,
      by rw [hp]; rfl⟩
    rw [(connWithBundleEx_status_stop w envs _ (by rw [hp])).1]; rfl
  · exact absurd g3 (hc b2 f2 g1 g2)
  · right
    refine ⟨Phase.connect, err, by simp only [firstFailure, g1, g2, g3, List.head?, g4], ?_,
      by rw [hp]; rfl, by rw [hp]; rfl⟩
    rw [(connWithBundleEx_status_stop w envs _ (by rw [hp])).1]; rfl
  · right
    refine ⟨Phase.handshake, err,
      by simp only [firstFailure, g1, g2, g3, List.head?, g4, g5], ?_,
      by rw [hp]; rfl, by rw [hp]; rfl⟩
    rw [(connWithBundleEx_status_stop w envs _ (by rw [hp])).1]; rfl
  · left
    refine ⟨by simp only [firstFailure, g1, g2, g3, List.head?, g4, g5],
      ⟨c, v, by rw [hp], g5⟩, ?_, by rw [hp]; rfl, by rw [hp]; rfl⟩
    rcases connWithBundleEx_status_ok w envs (c, v) (by rw [hp]) with h | h <;>
      rw [h] <;> simp

/-- C2, as stated, fails: a failure of the connect phase and a failure of the
handshake phase with the same error text produce the same report, so the report
does not tell the two phases apart. -/
theorem connWithBundleEx_connect_handshake_same_report :
    firstFailure (sampleWorld [sampleEndpoint] (.error ⟨ErrKind.timeoutError, "i/o timeout"⟩)
      (.ok 4)) = some (Phase.connect, ⟨ErrKind.timeoutError, "i/o timeout"⟩) ∧
    firstFailure (sampleWorld [sampleEndpoint] (.ok ())
      (.error ⟨ErrKind.timeoutError, "i/o timeout"⟩))
      = some (Phase.handshake, ⟨ErrKind.timeoutError, "i/o timeout"⟩) ∧
    fatalMessages (connWithBundleEx (sampleWorld [sampleEndpoint]
      (.error ⟨ErrKind.timeoutError, "i/o timeout"⟩) (.ok 4)) []).trace =
    fatalMessages (connWithBundleEx (sampleWorld [sampleEndpoint] (.ok ())
      (.error ⟨ErrKind.timeoutError, "i/o timeout"⟩)) []).trace ∧
    (connWithBundleEx (sampleWorld [sampleEndpoint]
      (.error ⟨ErrKind.timeoutError, "i/o timeout"⟩) (.ok 4)) []).status =
    (connWithBundleEx (sampleWorld [sampleEndpoint] (.ok ())
      (.error ⟨ErrKind.timeoutError, "i/o timeout"⟩)) []).status :=
  ⟨rfl, rfl, rfl, rfl⟩

/-- C2, amended: for collaborators whose resolved factory has a contact point,
`connWithBundleEx` reaches exactly one terminal outcome: either all four phases
succeeded and it holds the negotiated Connection, with no report, or the
process exits at the first failing phase, no later phase having been called,
with one `log.Fatalf` report in that phase's format.  The reports of two
different phases are different texts, except that the connect and the handshake
phase share the format `unable to connect to cluster: <err>`. -/
theorem connWithBundleEx_terminal_outcome {β φ κ : Type} (w1 w2 : World β φ κ)
    (envs1 envs2 : List SelectEnv) (hc1 : HasContactPoint w1) (hc2 : HasContactPoint w2) :
    ((firstFailure w1 = none ∧
        (∃ conn version, (connWithBundleExPhases w1).2 = .ok (conn, version) ∧
          w1.Handshake conn Context.Background ProtocolVersion4
            (NewDefaultAuth mainUsername mainPassword) = .ok version) ∧
        (connWithBundleEx w1 envs1).status ≠ Status.exited 1 ∧
        fatalMessages (connWithBundleEx w1 envs1).trace = [] ∧
        phasesCalled (connWithBundleEx w1 envs1).trace =
          [Phase.bundle, Phase.resolve, Phase.connect, Phase.handshake]) ∨
      (∃ p err, firstFailure w1 = some (p, err) ∧
        (connWithBundleEx w1 envs1).status = Status.exited 1 ∧
        fatalMessages (connWithBundleEx w1 envs1).trace = [phaseFormat p ++ fmtErr err] ∧
        (phasesCalled (connWithBundleEx w1 envs1).trace).getLast? = some p)) ∧
    (∀ p1 e1 p2 e2, firstFailure w1 = some (p1, e1) → firstFailure w2 = some (p2, e2) →
      p1 ≠ p2 → (p1 ≠ Phase.connect ∨ p2 ≠ Phase.handshake) →
      (p1 ≠ Phase.handshake ∨ p2 ≠ Phase.connect) →
      fatalMessages (connWithBundleEx w1 envs1).trace ≠
        fatalMessages (connWithBundleEx w2 envs2).trace) ∧
    (∀ err, phaseFormat Phase.connect ++ fmtErr err
      = phaseFormat Phase.handshake ++ fmtErr err) := by
  refine ⟨connWithBundleEx_outcome w1 envs1 hc1, ?_, fun _ => rfl⟩
  intro p1 e1 p2 e2 h1 h2 hne ha hb
  rcases connWithBundleEx_outcome w1 envs1 hc1 with ⟨h, -⟩ | ⟨q1, d1, g1, -, m1, -⟩
  · rw [h] at h1; cases h1
  · rcases connWithBundleEx_outcome w2 envs2 hc2 with ⟨h, -⟩ | ⟨q2, d2, g2, -, m2, -⟩
    · rw [h] at h2; cases h2
    · rw [g1] at h1; cases h1
      rw [g2] at h2; cases h2
      rw [m1, m2]
      intro heq
      exact phaseFormat_ne p1 p2 hne ha hb _ _ (List.head_eq_of_cons_eq heq)

/-- The amended C2 at a bundle that cannot be opened and at an endpoint that
cannot be reached: the two reports differ. -/
theorem connWithBundleEx_terminal_outcome_witness :
    HasContactPoint (sampleWorldNoBundle ⟨ErrKind.bundleError, "corrupt"⟩) ∧
    HasContactPoint (sampleWorld [sampleEndpoint]
      (.error ⟨ErrKind.connectError, "refused"⟩) (.ok 4)) ∧
    fatalMessages (connWithBundleEx
      (sampleWorldNoBundle ⟨ErrKind.bundleError, "corrupt"⟩) []).trace ≠
    fatalMessages (connWithBundleEx (sampleWorld [sampleEndpoint]
      (.error ⟨ErrKind.connectError, "refused"⟩) (.ok 4)) []).trace :=
  have h1 : HasContactPoint (sampleWorldNoBundle ⟨ErrKind.bundleError, "corrupt"⟩) :=
    fun _ _ h => by cases h
  have h2 : HasContactPoint (sampleWorld [sampleEndpoint]
      (.error ⟨ErrKind.connectError, "refused"⟩) (.ok 4)) :=
    fun _ _ _ _ => by simp [sampleWorld]
  ⟨h1, h2, (connWithBundleEx_terminal_outcome _ _ [] [] h1 h2).2.1
    Phase.bundle ⟨ErrKind.bundleError, "corrupt"⟩ Phase.connect
    ⟨ErrKind.connectError, "refused"⟩ rfl rfl (by decide) (by decide) (by decide)⟩

/-! ## The read loop of `closeExample` -/

/-- The condition of line 97 holds exactly for `net.ErrClosed` and `io.EOF`. -/
theorem readBreaks_iff (err : Option ReadError) :
    readBreaks err = true ↔ err = some ReadError.ErrClosed ∨ err = some ReadError.EOF := by
  unfold readBreaks
  simp

/-- The loop breaks only at a `Read` whose error satisfies the condition of
line 97, and no earlier `Read` from its start satisfied it. -/
theorem clientReadLoop_some (read : Nat → Option ReadError) (fuel i : Nat)
    (logged : List String) (n : Nat) (out : List String)
    (h : clientReadLoop read fuel i logged = some (n, out)) :
    i ≤ n ∧ readBreaks (read n) = true ∧ ∀ j, i ≤ j → j < n → readBreaks (read j) = false := by
  induction fuel generalizing i logged with
  | zero => simp [clientReadLoop] at h
  | succ fuel ih =>
    unfold clientReadLoop at h
    simp only at h
    by_cases hb : readBreaks (read i) = true
    · rw [if_pos hb] at h
      simp only [Option.some.injEq, Prod.mk.injEq] at h
      obtain ⟨rfl, -⟩ := h
      exact ⟨le_refl _, hb, fun j h1 h2 => absurd h2 (by omega)⟩
    · rw [if_neg hb] at h
      have hrec : ∃ lg, clientReadLoop read fuel (i + 1) lg = some (n, out) := by
        split at h
        · exact ⟨_, h⟩
        · exact ⟨_, h⟩
      obtain ⟨lg, hlg⟩ := hrec
      obtain ⟨h1, h2, h3⟩ := ih (i + 1) lg hlg
      refine ⟨by omega, h2, ?_⟩
      intro j hj1 hj2
      by_cases hji : j = i
      · subst hji; simpa using hb
      · exact h3 j (by omega) hj2

/-- When some `Read` at or after index `i` satisfies the condition of line 97,
the loop started at `i` breaks, given enough iterations. -/
theorem clientReadLoop_breaks (read : Nat → Option ReadError) (d i : Nat)
    (logged : List String) (h : readBreaks (read (i + d)) = true) :
    (clientReadLoop read (d + 1) i logged).isSome = true := by
  induction d generalizing i logged with
  | zero =>
    unfold clientReadLoop
    simp only [Nat.add_zero] at h
    simp [h]
  | succ d ih =>
    unfold clientReadLoop
    simp only
    by_cases hb : readBreaks (read i) = true
    · simp [hb]
    · rw [if_neg hb]
      have h2 : readBreaks (read (i + 1 + d)) = true := by
        rw [show i + 1 + d = i + (d + 1) by omega]; exact h
      split
      · exact ih (i + 1) _ h2
      · exact ih (i + 1) _ h2

/-- C10: the client read loop of `closeExample` exits exactly at a `Read` whose
error equals `net.ErrClosed` or `io.EOF`; a `Read` that returns nil or any
other error does not exit it.  For every sequence of `Read` results the loop
terminates if and only if the sequence contains `net.ErrClosed` or `io.EOF`,
it then breaks at the first such `Read`, and where every `Read` returns some
other error the loop never terminates. -/
theorem closeExample_read_loop (read : Nat → Option ReadError) :
    (∀ err, readBreaks err = true ↔
      err = some ReadError.ErrClosed ∨ err = some ReadError.EOF) ∧
    readBreaks none = false ∧
    (∀ text, readBreaks (some (ReadError.otherError text)) = false) ∧
    (ReadLoopTerminates read ↔
      ∃ i, read i = some ReadError.ErrClosed ∨ read i = some ReadError.EOF) ∧
    (∀ fuel n out, clientReadLoop read fuel 0 [] = some (n, out) →
      (read n = some ReadError.ErrClosed ∨ read n = some ReadError.EOF) ∧
      ∀ j, j < n → read j ≠ some ReadError.ErrClosed ∧ read j ≠ some ReadError.EOF) ∧
    ((∀ i, ∃ text, read i = some (ReadError.otherError text)) → ¬ ReadLoopTerminates read) := by
  have hterm : ReadLoopTerminates read ↔
      ∃ i, read i = some ReadError.ErrClosed ∨ read i = some ReadError.EOF := by
    constructor
    · rintro ⟨fuel, hf⟩
      obtain ⟨⟨n, out⟩, hs⟩ := Option.isSome_iff_exists.1 hf
      exact ⟨n, (readBreaks_iff _).1 (clientReadLoop_some read fuel 0 [] n out hs).2.1⟩
    · rintro ⟨i, hi⟩
      exact ⟨i + 1, clientReadLoop_breaks read i 0 [] (by
        rw [Nat.zero_add]; exact (readBreaks_iff _).2 hi)⟩
  refine ⟨readBreaks_iff, rfl, fun _ => rfl, hterm, ?_, ?_⟩
  · intro fuel n out h
    obtain ⟨-, h2, h3⟩ := clientReadLoop_some read fuel 0 [] n out h
    refine ⟨(readBreaks_iff _).1 h2, ?_⟩
    intro j hj
    have h4 := h3 j (Nat.zero_le _) hj
    constructor
    · intro hc; rw [hc] at h4; cases h4
    · intro hc; rw [hc] at h4; cases h4
  · intro hall hT
    obtain ⟨i, hi⟩ := hterm.1 hT
    obtain ⟨text, ht⟩ := hall i
    rw [ht] at hi
    rcases hi with h | h <;> cases h

/-! ## The Handshake Negotiator -/

/-- State `Authenticating` sends no version proposal and, when it succeeds,
keeps the version it was entered with. -/
theorem authenticating_version (auth : AuthProvider) (version : Nat) (ch : List Nat)
    (rest : List Reply) :
    versionProposals (authenticating auth version ch rest).sent = [] ∧
    ∀ r, (authenticating auth version ch rest).result = .ok r → r.version = version := by
  unfold authenticating
  cases auth ch with
  | none => exact ⟨rfl, fun r h => by cases h⟩
  | some creds =>
    cases rest with
    | nil => exact ⟨rfl, fun r h => by cases h⟩
    | cons x xs => cases x <;> exact ⟨rfl, fun r h => by cases h <;> rfl⟩

/-- One proposal sends exactly itself as version proposal when the server does
not answer with a mismatch, whatever follows. -/
theorem proposeVersion_authenticate (auth : AuthProvider) (version : Nat) (d : Bool)
    (ch : List Nat) (rest : List Reply) :
    versionProposals (proposeVersion auth version d (Reply.authenticate ch :: rest)).sent
      = [version] ∧
    ∀ r, (proposeVersion auth version d (Reply.authenticate ch :: rest)).result = .ok r →
      r.version = version := by
  obtain ⟨h1, h2⟩ := authenticating_version auth version ch rest
  refine ⟨?_, ?_⟩
  · simp only [proposeVersion]
    simp only [versionProposals, List.filterMap_cons] at h1 ⊢
    rw [h1]
  · simpa only [proposeVersion] using h2

/-- After a downgrade, a handshake sends no further version proposal. -/
theorem proposeVersion_downgraded (auth : AuthProvider) (version : Nat)
    (replies : List Reply) :
    versionProposals (proposeVersion auth version true replies).sent = [version] ∧
    ∀ r, (proposeVersion auth version true replies).result = .ok r → r.version = version := by
  cases replies with
  | nil => exact ⟨rfl, fun r h => by cases h⟩
  | cons x xs =>
    cases x with
    | versionMismatch sv => exact ⟨rfl, fun r h => by cases h⟩
    | authenticate ch => exact proposeVersion_authenticate auth version true ch xs
    | ready => exact ⟨rfl, fun r h => by cases h; rfl⟩
    | authSuccess => exact ⟨rfl, fun r h => by cases h⟩
    | errorFrame => exact ⟨rfl, fun r h => by cases h⟩

/-- C5: `Handshake(ctx, requestedVersion, auth)`: when the server answers the
first version proposal with a mismatch carrying a version `v` (a lower one in
particular), exactly one retry is sent, at version `v`; if that retry is
accepted, directly or after authentication, the negotiated version is `v`; if
it is answered by a second mismatch the handshake ends with `VersionError`.
For every sequence of server replies at most 2 version proposals are sent, and
the handshake, a total function, terminates. -/
theorem Handshake_single_downgrade (auth : AuthProvider) (requested v : Nat)
    (rest : List Reply) :
    versionProposals (Handshake (Reply.versionMismatch v :: rest) requested auth).sent
      = [requested, v] ∧
    (∀ r, (Handshake (Reply.versionMismatch v :: rest) requested auth).result = .ok r →
      r.version = v) ∧
    (∀ tail, Handshake (Reply.versionMismatch v :: Reply.ready :: tail) requested auth =
      ⟨[Request.versionProposal requested, Request.versionProposal v], .ok ⟨v, false⟩⟩) ∧
    (∀ ch creds tail, auth ch = some creds →
      Handshake (Reply.versionMismatch v :: Reply.authenticate ch :: Reply.authSuccess :: tail)
        requested auth =
      ⟨[Request.versionProposal requested, Request.versionProposal v,
          Request.authResponse creds], .ok ⟨v, true⟩⟩) ∧
    (∀ v2 tail,
      Handshake (Reply.versionMismatch v :: Reply.versionMismatch v2 :: tail) requested auth =
      ⟨[Request.versionProposal requested, Request.versionProposal v],
        .error ErrKind.versionError⟩) ∧
    (∀ replies, (versionProposals (Handshake replies requested auth).sent).length ≤ 2) := by
  obtain ⟨h1, h2⟩ := proposeVersion_downgraded auth v rest
  refine ⟨?_, ?_, ?_, ?_, ?_, ?_⟩
  · simp only [Handshake, proposeVersion, Bool.false_eq_true, if_false]
    simp only [versionProposals, List.filterMap_cons] at h1 ⊢
    rw [h1]
  · intro r hr
    simp only [Handshake, proposeVersion, Bool.false_eq_true, if_false] at hr
    exact h2 r hr
  · intro tail
    rfl
  · intro ch creds tail hc
    simp only [Handshake, proposeVersion, Bool.false_eq_true, if_false, authenticating, hc]
  · intro v2 tail
    rfl
  · intro replies
    cases replies with
    | nil => simp [Handshake, proposeVersion, versionProposals]
    | cons x xs =>
      cases x with
      | versionMismatch sv =>
        have h3 := (proposeVersion_downgraded auth sv xs).1
        simp only [Handshake, proposeVersion, Bool.false_eq_true, if_false]
        simp only [versionProposals, List.filterMap_cons] at h3 ⊢
        rw [h3]
        simp
      | authenticate ch =>
        rw [Handshake, (proposeVersion_authenticate auth requested false ch xs).1]
        simp
      | ready => simp [Handshake, proposeVersion, versionProposals]
      | authSuccess => simp [Handshake, proposeVersion, versionProposals]
      | errorFrame => simp [Handshake, proposeVersion, versionProposals]

/-! ## The Connection -/

/-- No operation reopens a Connection that is shut, and none serves a sender
on it. -/
theorem ConnOp.apply_shut (op : ConnOp) (c : Connection) (h : c.shut = true) :
    (op.apply c).shut = true ∧ (op.apply c).served = c.served ∧
    (op.apply c).queue = c.queue := by
  obtain ⟨state, err, queue, signal, served⟩ := c
  cases state <;> simp [Connection.shut] at h <;> cases op <;>
    simp [ConnOp.apply, Connection.Write, Connection.Close, Connection.writable,
      Connection.shutdownDone, Connection.fail, Connection.shut]

/-- The same over any sequence of operations. -/
theorem runOps_shut (ops : List ConnOp) (c : Connection) (h : c.shut = true) :
    (runOps ops c).shut = true ∧ (runOps ops c).served = c.served ∧
    (runOps ops c).queue = c.queue := by
  induction ops generalizing c with
  | nil => exact ⟨h, rfl, rfl⟩
  | cons op ops ih =>
    obtain ⟨h1, h2, h3⟩ := ConnOp.apply_shut op c h
    obtain ⟨i1, i2, i3⟩ := ih (op.apply c) h1
    simp only [runOps, List.foldl_cons] at i1 i2 i3 ⊢
    exact ⟨i1, i2.trans h2, i3.trans h3⟩

/-- After `Close` a Connection is shut. -/
theorem Connection.Close_shut (c : Connection) : c.Close.shut = true := by
  obtain ⟨state, err, queue, signal, served⟩ := c
  cases state <;> simp [Connection.Close, Connection.shut]

/-- Calling `Close` on a Connection that is shut changes nothing. -/
theorem Connection.Close_of_shut (c : Connection) (h : c.shut = true) : c.Close = c := by
  unfold Connection.Close
  rw [if_pos h]

/-- C6: on the Connection, for every Connection on which `Close` has been
called, whatever happened to it since: a subsequent `Write` fails with the
"closed" classified error, recorded on the Connection, the sender is not
enqueued and no later operation invokes a sender with an output sink; and a
second `Close` leaves the Connection, its state, recorded error and close
signal included, exactly as it was (`Close ∘ Close = Close`), `Close` being a
total function that raises no fault. -/
theorem Connection_write_after_close (c : Connection) (ops later : List ConnOp)
    (sender : Nat) :
    ((runOps ops c.Close).Write sender).Err = some closedError ∧
    ((runOps ops c.Close).Write sender).Err.map GoError.kind = some ErrKind.closed ∧
    ((runOps ops c.Close).Write sender).queue = c.Close.queue ∧
    ((runOps ops c.Close).Write sender).state = (runOps ops c.Close).state ∧
    ((runOps ops c.Close).Write sender).IsClosed = (runOps ops c.Close).IsClosed ∧
    (runOps later ((runOps ops c.Close).Write sender)).served = c.served ∧
    c.Close.Close = c.Close ∧
    (runOps ops c.Close).Close = runOps ops c.Close := by
  obtain ⟨h1, h2, h3⟩ := runOps_shut ops c.Close (Connection.Close_shut c)
  have hw : (runOps ops c.Close).Write sender =
      { runOps ops c.Close with err := some closedError } := by
    simp only [Connection.Write, h1, if_true]
  have hws : ((runOps ops c.Close).Write sender).shut = true := by
    rw [hw]; exact h1
  have hcs : c.Close.served = c.served := by
    obtain ⟨state, err, queue, signal, served⟩ := c
    cases state <;> simp [Connection.Close, Connection.shut]
  refine ⟨by rw [hw]; rfl, by rw [hw]; rfl, by rw [hw]; exact h3, by rw [hw], by rw [hw]; rfl,
    ?_, ?_, ?_⟩
  · rw [(runOps_shut later _ hws).2.1, hw]
    exact h2.trans hcs
  · exact Connection.Close_of_shut _ (Connection.Close_shut c)
  · exact Connection.Close_of_shut _ h1

/-! ## The Cluster Connector -/

/-- The error history of endpoints that all fail names each of them, in order. -/
theorem failureHistory_of_fail (net : Network) (version : Nat) (auth : AuthProvider)
    (eps : List Endpoint) (h : ∀ ep ∈ eps, AttemptFails net version auth ep) :
    (failureHistory net version auth eps).map Prod.fst = eps ∧
    (failureHistory net version auth eps).length = eps.length ∧
    ∀ p ∈ failureHistory net version auth eps,
      attemptEndpoint net version auth p.1 = .error p.2 := by
  induction eps with
  | nil => exact ⟨rfl, rfl, by simp [failureHistory]⟩
  | cons ep rest ih =>
    obtain ⟨e, he⟩ := h ep (by simp)
    obtain ⟨i1, i2, i3⟩ := ih (fun x hx => h x (by simp [hx]))
    have hcons : failureHistory net version auth (ep :: rest) =
        (ep, e) :: failureHistory net version auth rest := by
      simp only [failureHistory, List.filterMap_cons, he]
    rw [hcons]
    refine ⟨by simp [i1], by simp [i2], ?_⟩
    intro p hp
    rcases List.mem_cons.1 hp with h1 | h1
    · rw [h1]; exact he
    · exact i3 p h1

/-- The history of a list followed by one failing endpoint. -/
theorem failureHistory_append (net : Network) (version : Nat) (auth : AuthProvider)
    (a b : List Endpoint) :
    failureHistory net version auth (a ++ b) =
      failureHistory net version auth a ++ failureHistory net version auth b := by
  unfold failureHistory
  exact List.filterMap_append _ _ _

/-- The endpoint loop over endpoints that fail while cancellation is not set:
each is attempted and recorded, and the loop goes on with what follows. -/
theorem connectLoop_failing_run (net : Network) (ctx : Context) (version : Nat)
    (auth : AuthProvider) (pre tail : List Endpoint) (k : Nat)
    (history : List (Endpoint × AttemptError))
    (hfail : ∀ ep ∈ pre, AttemptFails net version auth ep)
    (hctx : ∀ j, j < pre.length → ctx.done (k + j) = false) :
    (connectLoop net ctx version auth (pre ++ tail) k history).attempted =
      pre ++ (connectLoop net ctx version auth tail (k + pre.length)
        (history ++ failureHistory net version auth pre)).attempted ∧
    (connectLoop net ctx version auth (pre ++ tail) k history).result =
      (connectLoop net ctx version auth tail (k + pre.length)
        (history ++ failureHistory net version auth pre)).result := by
  induction pre generalizing k history with
  | nil => simp [failureHistory]
  | cons ep rest ih =>
    obtain ⟨e, he⟩ := hfail ep (by simp)
    have h0 : ctx.done k = false := by simpa using hctx 0 (by simp)
    have hcons : failureHistory net version auth (ep :: rest) =
        (ep, e) :: failureHistory net version auth rest := by
      simp only [failureHistory, List.filterMap_cons, he]
    obtain ⟨i1, i2⟩ := ih (k + 1) (history ++ [(ep, e)])
      (fun x hx => hfail x (by simp [hx]))
      (fun j hj => by
        have := hctx (j + 1) (by simp; omega)
        rw [show k + 1 + j = k + (j + 1) by omega]; exact this)
    have hk : k + 1 + rest.length = k + (ep :: rest).length := by simp; omega
    rw [hk] at i1 i2
    simp only [List.cons_append, connectLoop, h0, he, Bool.false_eq_true, if_false]
    rw [hcons]
    simp only [List.append_assoc, List.singleton_append] at i1 i2
    exact ⟨congrArg (fun l => ep :: l) i1, i2⟩

/-- C4: `ConnectToCluster`, as called by `connClusterWithBundleEx` with
`context.Background()`, tries the contact points one after the other in the
factory's order.  When the first N endpoints fail, in `Connect` or in the
handshake: if they are all the endpoints, it fails with a
`ClusterConnectError` aggregating exactly N sub-errors, one per endpoint in
order; and if endpoint N+1 succeeds, it returns the Connection to endpoint N+1
with exactly those N failures recorded in order, having attempted the first
N+1 endpoints and none after them. -/
theorem ConnectToCluster_sequential (net : Network) (version : Nat) (auth : AuthProvider)
    (pre : List Endpoint) (hfail : ∀ ep ∈ pre, AttemptFails net version auth ep) :
    ConnectToCluster net Context.Background version auth pre =
      ⟨pre, .error (ClusterError.ClusterConnectError (failureHistory net version auth pre))⟩ ∧
    (failureHistory net version auth pre).length = pre.length ∧
    (failureHistory net version auth pre).map Prod.fst = pre ∧
    (∀ p ∈ failureHistory net version auth pre,
      attemptEndpoint net version auth p.1 = .error p.2) ∧
    (∀ good post r, attemptEndpoint net version auth good = .ok r →
      ConnectToCluster net Context.Background version auth (pre ++ good :: post) =
        ⟨pre ++ [good], .ok ⟨good, r, failureHistory net version auth pre⟩⟩) := by
  obtain ⟨f1, f2, f3⟩ := failureHistory_of_fail net version auth pre hfail
  have hbg : ∀ j, j < pre.length → Context.Background.done (0 + j) = false := fun _ _ => rfl
  refine ⟨?_, f2, f1, f3, ?_⟩
  · obtain ⟨h1, h2⟩ := connectLoop_failing_run net Context.Background version auth pre [] 0 []
      hfail hbg
    simp only [List.append_nil, connectLoop, List.nil_append] at h1 h2
    have heta : ConnectToCluster net Context.Background version auth pre =
        ⟨(ConnectToCluster net Context.Background version auth pre).attempted,
          (ConnectToCluster net Context.Background version auth pre).result⟩ := rfl
    rw [heta]
    unfold ConnectToCluster
    rw [h1, h2]
  · intro good post r hgood
    obtain ⟨h1, h2⟩ := connectLoop_failing_run net Context.Background version auth pre
      (good :: post) 0 [] hfail hbg
    have hstep : ∀ k history, connectLoop net Context.Background version auth
        (good :: post) k history = ⟨[good], .ok ⟨good, r, history⟩⟩ := by
      intro k history
      simp only [connectLoop, hgood]
      rfl
    rw [hstep] at h1 h2
    simp only [List.nil_append] at h1 h2
    have heta : ConnectToCluster net Context.Background version auth (pre ++ good :: post) =
        ⟨(ConnectToCluster net Context.Background version auth (pre ++ good :: post)).attempted,
          (ConnectToCluster net Context.Background version auth (pre ++ good :: post)).result⟩ :=
      rfl
    rw [heta]
    unfold ConnectToCluster
    rw [h1, h2]

/-- C4 on the scenario of section 8: `10.0.0.1:9042` times out, `10.0.0.2:9042`
handshakes at version 4 with PLAIN authentication. -/
theorem ConnectToCluster_sequential_witness :
    (∀ ep ∈ [(⟨"10.0.0.1", 9042⟩ : Endpoint)],
      AttemptFails scenarioNetwork 4 (NewDefaultAuth "user" "pass").provider ep) ∧
    ConnectToCluster scenarioNetwork Context.Background 4 (NewDefaultAuth "user" "pass").provider
      [⟨"10.0.0.1", 9042⟩, ⟨"10.0.0.2", 9042⟩] =
      ⟨[⟨"10.0.0.1", 9042⟩, ⟨"10.0.0.2", 9042⟩],
        .ok ⟨⟨"10.0.0.2", 9042⟩, ⟨4, true⟩,
          [(⟨"10.0.0.1", 9042⟩, AttemptError.connect ConnectCause.timeout)]⟩⟩ :=
  have h : ∀ ep ∈ [(⟨"10.0.0.1", 9042⟩ : Endpoint)],
      AttemptFails scenarioNetwork 4 (NewDefaultAuth "user" "pass").provider ep := by
    intro ep hep
    rw [List.mem_singleton.1 hep]
    exact ⟨AttemptError.connect ConnectCause.timeout, by decide⟩
  ⟨h, (ConnectToCluster_sequential scenarioNetwork 4 (NewDefaultAuth "user" "pass").provider
    [⟨"10.0.0.1", 9042⟩] h).2.2.2.2 ⟨"10.0.0.2", 9042⟩ [] ⟨4, true⟩ (by decide)⟩

/-- C7: `ConnectToCluster(ctx, version, auth, factory)`: for every factory and
every position k in its endpoint list, if the connector reaches endpoint k (the
endpoints before it failed while the signal was not set) and the cancellation
signal is set when it is about to begin the attempt on endpoint k, it returns
`CancelledError`, and the socket attempts it made are exactly those on the k
endpoints before: none on endpoint k or on a later one.  With the signal set
before the call no socket attempt is made. -/
theorem ConnectToCluster_cancelled (net : Network) (ctx : Context) (version : Nat)
    (auth : AuthProvider) (pre : List Endpoint) (ep : Endpoint) (post : List Endpoint)
    (hfail : ∀ x ∈ pre, AttemptFails net version auth x)
    (hbefore : ∀ j, j < pre.length → ctx.done j = false)
    (hcancel : ctx.done pre.length = true) :
    ConnectToCluster net ctx version auth (pre ++ ep :: post) =
      ⟨pre, .error ClusterError.CancelledError⟩ ∧
    (∀ (ctx0 : Context) (eps : List Endpoint), ctx0.done 0 = true →
      (ConnectToCluster net ctx0 version auth eps).attempted = []) := by
  refine ⟨?_, ?_⟩
  · obtain ⟨h1, h2⟩ := connectLoop_failing_run net ctx version auth pre (ep :: post) 0 []
      hfail (fun j hj => by rw [Nat.zero_add]; exact hbefore j hj)
    have hstep : ∀ history, connectLoop net ctx version auth (ep :: post) (0 + pre.length)
        history = ⟨[], .error ClusterError.CancelledError⟩ := by
      intro history
      simp only [connectLoop, Nat.zero_add, hcancel, if_true]
    rw [hstep] at h1 h2
    simp only [List.append_nil] at h1
    have heta : ConnectToCluster net ctx version auth (pre ++ ep :: post) =
        ⟨(ConnectToCluster net ctx version auth (pre ++ ep :: post)).attempted,
          (ConnectToCluster net ctx version auth (pre ++ ep :: post)).result⟩ := rfl
    rw [heta]
    unfold ConnectToCluster
    rw [h1, h2]
  · intro ctx0 eps h0
    cases eps with
    | nil => rfl
    | cons e es => simp only [ConnectToCluster, connectLoop, h0, if_true]

/-- C7 on the scenario of section 8 with the signal set after the first
attempt: one socket attempt, on `10.0.0.1:9042`, and none on `10.0.0.2:9042`. -/
theorem ConnectToCluster_cancelled_witness :
    (cancelledFrom 1).done 0 = false ∧ (cancelledFrom 1).done 1 = true ∧
    ConnectToCluster scenarioNetwork (cancelledFrom 1) 4 (NewDefaultAuth "user" "pass").provider
      [⟨"10.0.0.1", 9042⟩, ⟨"10.0.0.2", 9042⟩] =
      ⟨[⟨"10.0.0.1", 9042⟩], .error ClusterError.CancelledError⟩ :=
  ⟨by decide, by decide,
    (ConnectToCluster_cancelled scenarioNetwork (cancelledFrom 1) 4
      (NewDefaultAuth "user" "pass").provider [⟨"10.0.0.1", 9042⟩] ⟨"10.0.0.2", 9042⟩ []
      (by
        intro ep hep
        rw [List.mem_singleton.1 hep]
        exact ⟨AttemptError.connect ConnectCause.timeout, by decide⟩)
      (by
        intro j hj
        have : j = 0 := by simpa using hj
        subst this
        decide)
      (by decide)).1⟩

end CqlProxy
